import Mathlib

/-!
Encounters between organisms (`organism.h`).

A shallow embedding of `src/organism.h`: the `Organism` class template, the
overflow-checked addition `safeAdd`, the rule engine `encounter` and the reducer
`encounter_series`, followed by the properties that are proved about them.

Conventions of the embedding.

* The non-type template parameters `can_eat_meat`, `can_eat_plants` are type
  indices of `Organism` (they are part of the C++ type as well).
* `uint64_t` values are natural numbers; every `uint64_t` addition is written
  with an explicit `% UINT64_SIZE`.
* A `throw std::out_of_range` is the result `Except.error Failure.out_of_range`;
  reaching the closing brace of `encounter` without a `return` is
  `Except.error Failure.no_return`.
* The `requires` clause of `encounter` is a proof argument: an instantiation of
  `encounter` exists only when the constraint holds.
-/

namespace JnpOrganism

/-- The number of values of a `uint64_t`. -/
def UINT64_SIZE : Nat := 2 ^ 64

/-- The largest `uint64_t`. -/
def UINT64_MAX : Nat := 2 ^ 64 - 1

/-- The class template `Organism<species_t, can_eat_meat, can_eat_plants>`
(lines 11-38): a species and a vitality; the two diet flags are part of the type. -/
structure Organism (species_t : Type) (can_eat_meat can_eat_plants : Bool) where
  species : species_t
  vitality : Nat
deriving DecidableEq, Repr

namespace Organism

variable {species_t : Type} {can_eat_meat can_eat_plants : Bool}

/-- The member `clone()` (lines 22-25). -/
def clone (o : Organism species_t can_eat_meat can_eat_plants) :
    Organism species_t can_eat_meat can_eat_plants :=
  Organism.mk o.species o.vitality

/-- The member `clone(uint64_t newVitality)` (lines 27-31). -/
def clone_newVitality (o : Organism species_t can_eat_meat can_eat_plants)
    (newVitality : Nat) : Organism species_t can_eat_meat can_eat_plants :=
  Organism.mk o.species newVitality

/-- The member `is_dead()` (line 33). -/
def is_dead (o : Organism species_t can_eat_meat can_eat_plants) : Bool :=
  o.vitality == 0

/-- The member `get_vitality()` (line 35). -/
def get_vitality (o : Organism species_t can_eat_meat can_eat_plants) : Nat :=
  o.vitality

/-- The member `get_species()` (line 37). -/
def get_species (o : Organism species_t can_eat_meat can_eat_plants) : species_t :=
  o.species

end Organism

/-- The ways a call can end without a value: the `std::out_of_range` thrown by
`safeAdd`, and control reaching the end of `encounter` without a `return`. -/
inductive Failure where
  | out_of_range
  | no_return
deriving DecidableEq, Repr

deriving instance DecidableEq for Except

/-- The function `safeAdd` (lines 40-45); `a + b` is the wrapping `uint64_t` sum. -/
def safeAdd (a b : Nat) : Except Failure Nat :=
  if (a + b) % UINT64_SIZE < max a b then
    Except.error Failure.out_of_range
  else
    Except.ok ((a + b) % UINT64_SIZE)

/-- The alias `Carnivore<T>` (line 48). -/
abbrev Carnivore (T : Type) := Organism T true false

/-- The alias `Omnivore<T>` (line 51). -/
abbrev Omnivore (T : Type) := Organism T true true

/-- The alias `Herbivore<T>` (line 54). -/
abbrev Herbivore (T : Type) := Organism T false true

/-- The alias `Plant<T>` (line 57). -/
abbrev Plant (T : Type) := Organism T false false

/-- The concept `areBothPlants` (lines 59-61). -/
def areBothPlants (sp1_eats_m sp1_eats_p sp2_eats_m sp2_eats_p : Bool) : Bool :=
  !sp1_eats_m && !sp1_eats_p && !sp2_eats_m && !sp2_eats_p

/-- The result type of `encounter` (lines 66-71): both organisms after the
encounter and the optional offspring, which has the type of the first organism. -/
abbrev EncounterResult (species_t : Type)
    (sp1_eats_m sp1_eats_p sp2_eats_m sp2_eats_p : Bool) : Type :=
  Organism species_t sp1_eats_m sp1_eats_p ×
    Organism species_t sp2_eats_m sp2_eats_p ×
    Option (Organism species_t sp1_eats_m sp1_eats_p)

/-- The function template `encounter` (lines 63-150).  The argument `_req` is
its `requires(!areBothPlants<...>)` clause.  `std::same_as` of the two parameter
types is equality of the diet flags (the species type is shared).  `tail` is the
code from line 119 to the closing brace, which the block of lines 99-117 falls
through to when none of its three `if`s returns. -/
def encounter {species_t : Type} [DecidableEq species_t]
    {sp1_eats_m sp1_eats_p sp2_eats_m sp2_eats_p : Bool}
    (_req : areBothPlants sp1_eats_m sp1_eats_p sp2_eats_m sp2_eats_p = false)
    (organism1 : Organism species_t sp1_eats_m sp1_eats_p)
    (organism2 : Organism species_t sp2_eats_m sp2_eats_p) :
    Except Failure (EncounterResult species_t sp1_eats_m sp1_eats_p sp2_eats_m sp2_eats_p) :=
  if organism1.get_vitality = 0 ∨ organism2.get_vitality = 0 then
    Except.ok (organism1.clone, organism2.clone, none)
  else if (sp1_eats_m = sp2_eats_m ∧ sp1_eats_p = sp2_eats_p) ∧
      organism1.get_species = organism2.get_species then
    match safeAdd organism1.get_vitality organism2.get_vitality with
    | Except.error e => Except.error e
    | Except.ok sum =>
      Except.ok (organism1.clone, organism2.clone,
        some (organism1.clone_newVitality (sum / 2)))
  else
    let isOrganism1Plant := !sp1_eats_p && !sp1_eats_m
    let isOrganism2Plant := !sp2_eats_p && !sp2_eats_m
    if !((isOrganism1Plant && sp2_eats_p) ||
        (isOrganism2Plant && sp1_eats_p) ||
        (!isOrganism1Plant && !isOrganism2Plant && (sp1_eats_m || sp2_eats_m))) then
      Except.ok (organism1.clone, organism2.clone, none)
    else
      let tail : Except Failure
          (EncounterResult species_t sp1_eats_m sp1_eats_p sp2_eats_m sp2_eats_p) :=
        if isOrganism1Plant && sp2_eats_p then
          match safeAdd organism2.get_vitality organism1.get_vitality with
          | Except.error e => Except.error e
          | Except.ok sum =>
            Except.ok (organism1.clone_newVitality 0, organism2.clone_newVitality sum, none)
        else if isOrganism2Plant && sp1_eats_p then
          match safeAdd organism1.get_vitality organism2.get_vitality with
          | Except.error e => Except.error e
          | Except.ok sum =>
            Except.ok (organism1.clone_newVitality sum, organism2.clone_newVitality 0, none)
        else if sp1_eats_m then
          if organism1.get_vitality ≤ organism2.get_vitality then
            Except.ok (organism1.clone, organism2.clone, none)
          else
            match safeAdd organism1.get_vitality (organism2.get_vitality / 2) with
            | Except.error e => Except.error e
            | Except.ok sum =>
              Except.ok (organism1.clone_newVitality sum, organism2.clone_newVitality 0, none)
        else if sp2_eats_m then
          if organism2.get_vitality ≤ organism1.get_vitality then
            Except.ok (organism1.clone, organism2.clone, none)
          else
            match safeAdd organism2.get_vitality (organism1.get_vitality / 2) with
            | Except.error e => Except.error e
            | Except.ok sum =>
              Except.ok (organism1.clone_newVitality 0, organism2.clone_newVitality sum, none)
        else
          Except.error Failure.no_return
      if !isOrganism1Plant && !isOrganism2Plant && sp1_eats_m && sp2_eats_m then
        if organism1.get_vitality = organism2.get_vitality then
          Except.ok (organism1.clone_newVitality 0, organism2.clone_newVitality 0, none)
        else if organism1.get_vitality < organism2.get_vitality then
          match safeAdd organism2.get_vitality (organism1.get_vitality / 2) with
          | Except.error e => Except.error e
          | Except.ok sum =>
            Except.ok (organism1.clone_newVitality 0, organism2.clone_newVitality sum, none)
        else if organism1.get_vitality > organism2.get_vitality then
          match safeAdd organism1.get_vitality (organism2.get_vitality / 2) with
          | Except.error e => Except.error e
          | Except.ok sum =>
            Except.ok (organism1.clone_newVitality sum, organism2.clone_newVitality 0, none)
        else
          tail
      else
        tail

/-- One further argument of `encounter_series`: an organism of the shared species
type and of any diet type (`sp2_eats_m`, `sp2_eats_p`) for which the call
`encounter(organism1, organism2)` of line 166 is well formed, `req` being the
`requires` clause of that call for a first organism with the flags
`sp1_eats_m`, `sp1_eats_p`. -/
structure SeriesArg (species_t : Type) (sp1_eats_m sp1_eats_p : Bool) where
  sp2_eats_m : Bool
  sp2_eats_p : Bool
  req : areBothPlants sp1_eats_m sp1_eats_p sp2_eats_m sp2_eats_p = false
  organism2 : Organism species_t sp2_eats_m sp2_eats_p

/-- The two overloads of `encounter_series` (lines 152-170) on a first organism
and a pack of further organisms of the same species type.  The empty pack
selects the overload of lines 152-159, which returns `organism1.clone()`; a pack
that starts with an organism selects the more specialised overload of lines
161-170, which keeps element 0 of the tuple returned by `encounter` and recurses
on the rest of the pack.  An exception thrown by `encounter` leaves the
function. -/
def encounter_series {species_t : Type} [DecidableEq species_t]
    {sp1_eats_m sp1_eats_p : Bool}
    (organism1 : Organism species_t sp1_eats_m sp1_eats_p) :
    List (SeriesArg species_t sp1_eats_m sp1_eats_p) →
      Except Failure (Organism species_t sp1_eats_m sp1_eats_p)
  | [] => Except.ok organism1.clone
  | arg :: args =>
    match encounter arg.req organism1 arg.organism2 with
    | Except.error e => Except.error e
    | Except.ok encounterResult => encounter_series encounterResult.1 args

/-- One step of the fold that the specification describes for a series: an
abort that already happened is kept, otherwise the accumulated organism meets
`next` and only the first component of the result is kept. -/
def series_step {species_t : Type} [DecidableEq species_t]
    {sp1_eats_m sp1_eats_p : Bool}
    (acc : Except Failure (Organism species_t sp1_eats_m sp1_eats_p))
    (next : SeriesArg species_t sp1_eats_m sp1_eats_p) :
    Except Failure (Organism species_t sp1_eats_m sp1_eats_p) :=
  match acc with
  | Except.error e => Except.error e
  | Except.ok organism =>
    match encounter next.req organism next.organism2 with
    | Except.error e => Except.error e
    | Except.ok encounterResult => Except.ok encounterResult.1

/-- The series as the specification words it: the left fold of `series_step`
over the further organisms, starting from the first organism. -/
def series_left_fold {species_t : Type} [DecidableEq species_t]
    {sp1_eats_m sp1_eats_p : Bool}
    (first : Organism species_t sp1_eats_m sp1_eats_p)
    (rest : List (SeriesArg species_t sp1_eats_m sp1_eats_p)) :
    Except Failure (Organism species_t sp1_eats_m sp1_eats_p) :=
  List.foldl series_step (Except.ok first) rest

/-- The return statements of `encounter`, as a relation between the two
arguments and the result: `Outcome a b res` lists, for each `return` and for the
`throw` of `safeAdd`, the value produced and the facts that hold when control
reaches it. -/
inductive Outcome {species_t : Type} {sp1_eats_m sp1_eats_p sp2_eats_m sp2_eats_p : Bool}
    (a : Organism species_t sp1_eats_m sp1_eats_p)
    (b : Organism species_t sp2_eats_m sp2_eats_p) :
    Except Failure (EncounterResult species_t sp1_eats_m sp1_eats_p sp2_eats_m sp2_eats_p) →
      Prop where
  | unchanged : Outcome a b (Except.ok (a, b, none))
  | merged (ha : 0 < a.vitality) (hb : 0 < b.vitality)
      (hcat : sp1_eats_m = sp2_eats_m ∧ sp1_eats_p = sp2_eats_p)
      (hspecies : a.species = b.species)
      (hfit : a.vitality + b.vitality < UINT64_SIZE) :
      Outcome a b (Except.ok (a, b,
        some (a.clone_newVitality ((a.vitality + b.vitality) / 2))))
  | overflow (ha : 0 < a.vitality) (hb : 0 < b.vitality)
      (hover : UINT64_SIZE ≤ a.vitality + b.vitality) :
      Outcome a b (Except.error Failure.out_of_range)
  | both_die (ha : 0 < a.vitality) (hb : 0 < b.vitality)
      (hm1 : sp1_eats_m = true) (hm2 : sp2_eats_m = true)
      (htie : a.vitality = b.vitality) :
      Outcome a b (Except.ok (a.clone_newVitality 0, b.clone_newVitality 0, none))
  | first_dies (ha : 0 < a.vitality) (hlt : a.vitality < b.vitality)
      (hm2 : sp2_eats_m = true) (hnp1 : sp1_eats_m = true ∨ sp1_eats_p = true)
      (hfit : b.vitality + a.vitality / 2 < UINT64_SIZE) :
      Outcome a b (Except.ok (a.clone_newVitality 0,
        b.clone_newVitality (b.vitality + a.vitality / 2), none))
  | second_dies (hb : 0 < b.vitality) (hlt : b.vitality < a.vitality)
      (hm1 : sp1_eats_m = true) (hnp2 : sp2_eats_m = true ∨ sp2_eats_p = true)
      (hfit : a.vitality + b.vitality / 2 < UINT64_SIZE) :
      Outcome a b (Except.ok (a.clone_newVitality (a.vitality + b.vitality / 2),
        b.clone_newVitality 0, none))
  | first_eaten (ha : 0 < a.vitality) (hb : 0 < b.vitality)
      (hplant : sp1_eats_m = false ∧ sp1_eats_p = false) (heats : sp2_eats_p = true)
      (hfit : b.vitality + a.vitality < UINT64_SIZE) :
      Outcome a b (Except.ok (a.clone_newVitality 0,
        b.clone_newVitality (b.vitality + a.vitality), none))
  | second_eaten (ha : 0 < a.vitality) (hb : 0 < b.vitality)
      (hplant : sp2_eats_m = false ∧ sp2_eats_p = false) (heats : sp1_eats_p = true)
      (hfit : a.vitality + b.vitality < UINT64_SIZE) :
      Outcome a b (Except.ok (a.clone_newVitality (a.vitality + b.vitality),
        b.clone_newVitality 0, none))

/-! ## Auxiliary facts -/

theorem UINT64_SIZE_eq : UINT64_SIZE = 18446744073709551616 := by
  unfold UINT64_SIZE; norm_num

theorem UINT64_MAX_eq : UINT64_MAX = 18446744073709551615 := by
  unfold UINT64_MAX; norm_num

theorem UINT64_MAX_succ : UINT64_MAX + 1 = UINT64_SIZE := by
  rw [UINT64_MAX_eq, UINT64_SIZE_eq]

/-- A sum that fits in 64 bits is returned by `safeAdd` as it is. -/
theorem safeAdd_of_fits {a b : Nat} (h : a + b < UINT64_SIZE) :
    safeAdd a b = Except.ok (a + b) := by
  unfold safeAdd
  rw [Nat.mod_eq_of_lt h]
  have hmax : ¬ (a + b < max a b) := by
    rw [not_lt]
    exact max_le (Nat.le_add_right a b) (Nat.le_add_left b a)
  rw [if_neg hmax]

/-- The wrapped sum of two 64-bit values whose sum does not fit is below both. -/
theorem wrapped_sum_lt_max {a b : Nat} (ha : a < UINT64_SIZE) (hb : b < UINT64_SIZE)
    (h : UINT64_SIZE ≤ a + b) : (a + b) % UINT64_SIZE < max a b := by
  have hlt : a + b - UINT64_SIZE < UINT64_SIZE := by omega
  have hmod : (a + b) % UINT64_SIZE = a + b - UINT64_SIZE := by
    rw [Nat.mod_eq_sub_mod h, Nat.mod_eq_of_lt hlt]
  rw [hmod]
  have : a + b - UINT64_SIZE < a := by omega
  exact lt_of_lt_of_le this (le_max_left a b)

/-- A sum of two 64-bit values that does not fit makes `safeAdd` throw. -/
theorem safeAdd_of_overflow {a b : Nat} (ha : a < UINT64_SIZE) (hb : b < UINT64_SIZE)
    (h : UINT64_SIZE ≤ a + b) : safeAdd a b = Except.error Failure.out_of_range := by
  unfold safeAdd
  rw [if_pos (wrapped_sum_lt_max ha hb h)]

section Branches

variable {species_t : Type} [DecidableEq species_t]
variable {sp1_eats_m sp1_eats_p sp2_eats_m sp2_eats_p : Bool}

/-- Line 75: a dead participant ends the encounter at once. -/
theorem encounter_of_dead
    (req : areBothPlants sp1_eats_m sp1_eats_p sp2_eats_m sp2_eats_p = false)
    (a : Organism species_t sp1_eats_m sp1_eats_p)
    (b : Organism species_t sp2_eats_m sp2_eats_p)
    (h : a.vitality = 0 ∨ b.vitality = 0) :
    encounter req a b = Except.ok (a, b, none) := by
  unfold encounter
  simp only [Organism.get_vitality, Organism.clone]
  rw [if_pos h]

/-- Lines 79-86: two live organisms of one type and one species. -/
theorem encounter_of_merge
    (req : areBothPlants sp1_eats_m sp1_eats_p sp2_eats_m sp2_eats_p = false)
    (a : Organism species_t sp1_eats_m sp1_eats_p)
    (b : Organism species_t sp2_eats_m sp2_eats_p)
    (ha : 0 < a.vitality) (hb : 0 < b.vitality)
    (hsame : (sp1_eats_m = sp2_eats_m ∧ sp1_eats_p = sp2_eats_p) ∧ a.species = b.species) :
    encounter req a b =
      match safeAdd a.vitality b.vitality with
      | Except.error e => Except.error e
      | Except.ok sum => Except.ok (a, b, some (a.clone_newVitality (sum / 2))) := by
  unfold encounter
  simp only [Organism.get_vitality, Organism.clone, Organism.get_species]
  have hlive : ¬ (a.vitality = 0 ∨ b.vitality = 0) := by omega
  rw [if_neg hlive, if_pos hsame]

/-- Lines 91-97: neither organism can eat the other. -/
theorem encounter_of_gate_closed
    (req : areBothPlants sp1_eats_m sp1_eats_p sp2_eats_m sp2_eats_p = false)
    (a : Organism species_t sp1_eats_m sp1_eats_p)
    (b : Organism species_t sp2_eats_m sp2_eats_p)
    (hmerge : ¬ ((sp1_eats_m = sp2_eats_m ∧ sp1_eats_p = sp2_eats_p) ∧ a.species = b.species))
    (hgate : (((!sp1_eats_p && !sp1_eats_m) && sp2_eats_p) ||
        ((!sp2_eats_p && !sp2_eats_m) && sp1_eats_p) ||
        (!(!sp1_eats_p && !sp1_eats_m) && !(!sp2_eats_p && !sp2_eats_m) &&
          (sp1_eats_m || sp2_eats_m))) = false) :
    encounter req a b = Except.ok (a, b, none) := by
  unfold encounter
  simp only [Organism.get_vitality, Organism.clone, Organism.get_species]
  by_cases hdead : a.vitality = 0 ∨ b.vitality = 0
  · rw [if_pos hdead]
  · rw [if_neg hdead, if_neg hmerge]
    simp only [hgate, Bool.not_false, if_true]

/-- Lines 99-117: two live meat eaters that do not merge. -/
theorem encounter_of_both_meat {p1 p2 : Bool}
    (req : areBothPlants true p1 true p2 = false)
    (a : Organism species_t true p1) (b : Organism species_t true p2)
    (ha : 0 < a.vitality) (hb : 0 < b.vitality)
    (hmerge : ¬ (p1 = p2 ∧ a.species = b.species)) :
    encounter req a b =
      if a.vitality = b.vitality then
        Except.ok (a.clone_newVitality 0, b.clone_newVitality 0, none)
      else if a.vitality < b.vitality then
        match safeAdd b.vitality (a.vitality / 2) with
        | Except.error e => Except.error e
        | Except.ok sum => Except.ok (a.clone_newVitality 0, b.clone_newVitality sum, none)
      else
        match safeAdd a.vitality (b.vitality / 2) with
        | Except.error e => Except.error e
        | Except.ok sum => Except.ok (a.clone_newVitality sum, b.clone_newVitality 0, none) := by
  unfold encounter
  simp only [Organism.get_vitality, Organism.clone, Organism.get_species]
  have hlive : ¬ (a.vitality = 0 ∨ b.vitality = 0) := by omega
  have hmerge2 : ¬ ((True ∧ p1 = p2) ∧ a.species = b.species) := by
    rintro ⟨⟨-, h1⟩, h2⟩
    exact hmerge ⟨h1, h2⟩
  rw [if_neg hlive, if_neg hmerge2]
  by_cases heq : a.vitality = b.vitality
  · simp [heq]
  · by_cases hlt : a.vitality < b.vitality
    · simp [heq, hlt]
    · have hgt : a.vitality > b.vitality := by omega
      simp [heq, hlt, hgt]

/-- Lines 119-124: a live plant meets a live plant eater. -/
theorem encounter_of_plant_first {m2 : Bool}
    (req : areBothPlants false false m2 true = false)
    (a : Organism species_t false false) (b : Organism species_t m2 true)
    (ha : 0 < a.vitality) (hb : 0 < b.vitality) :
    encounter req a b =
      match safeAdd b.vitality a.vitality with
      | Except.error e => Except.error e
      | Except.ok sum => Except.ok (a.clone_newVitality 0, b.clone_newVitality sum, none) := by
  unfold encounter
  simp only [Organism.get_vitality, Organism.clone, Organism.get_species]
  have hlive : ¬ (a.vitality = 0 ∨ b.vitality = 0) := by omega
  rw [if_neg hlive]
  simp

/-- Lines 126-130: a live plant eater meets a live plant. -/
theorem encounter_of_plant_second {m1 : Bool}
    (req : areBothPlants m1 true false false = false)
    (a : Organism species_t m1 true) (b : Organism species_t false false)
    (ha : 0 < a.vitality) (hb : 0 < b.vitality) :
    encounter req a b =
      match safeAdd a.vitality b.vitality with
      | Except.error e => Except.error e
      | Except.ok sum => Except.ok (a.clone_newVitality sum, b.clone_newVitality 0, none) := by
  unfold encounter
  simp only [Organism.get_vitality, Organism.clone, Organism.get_species]
  have hlive : ¬ (a.vitality = 0 ∨ b.vitality = 0) := by omega
  rw [if_neg hlive]
  simp

/-- Lines 132-139: a live meat eater meets a live herbivore. -/
theorem encounter_of_predator_first {p1 : Bool}
    (req : areBothPlants true p1 false true = false)
    (a : Organism species_t true p1) (b : Organism species_t false true)
    (ha : 0 < a.vitality) (hb : 0 < b.vitality) :
    encounter req a b =
      if a.vitality ≤ b.vitality then
        Except.ok (a, b, none)
      else
        match safeAdd a.vitality (b.vitality / 2) with
        | Except.error e => Except.error e
        | Except.ok sum => Except.ok (a.clone_newVitality sum, b.clone_newVitality 0, none) := by
  unfold encounter
  simp only [Organism.get_vitality, Organism.clone, Organism.get_species]
  have hlive : ¬ (a.vitality = 0 ∨ b.vitality = 0) := by omega
  rw [if_neg hlive]
  simp

/-- Lines 141-149: a live herbivore meets a live meat eater. -/
theorem encounter_of_predator_second {p2 : Bool}
    (req : areBothPlants false true true p2 = false)
    (a : Organism species_t false true) (b : Organism species_t true p2)
    (ha : 0 < a.vitality) (hb : 0 < b.vitality) :
    encounter req a b =
      if b.vitality ≤ a.vitality then
        Except.ok (a, b, none)
      else
        match safeAdd b.vitality (a.vitality / 2) with
        | Except.error e => Except.error e
        | Except.ok sum => Except.ok (a.clone_newVitality 0, b.clone_newVitality sum, none) := by
  unfold encounter
  simp only [Organism.get_vitality, Organism.clone, Organism.get_species]
  have hlive : ¬ (a.vitality = 0 ∨ b.vitality = 0) := by omega
  rw [if_neg hlive]
  simp

/-- Outside the merge case a returning encounter has no offspring. -/
theorem encounter_offspring_none
    (req : areBothPlants sp1_eats_m sp1_eats_p sp2_eats_m sp2_eats_p = false)
    (a : Organism species_t sp1_eats_m sp1_eats_p)
    (b : Organism species_t sp2_eats_m sp2_eats_p)
    (hmerge : ¬ ((sp1_eats_m = sp2_eats_m ∧ sp1_eats_p = sp2_eats_p) ∧ a.species = b.species))
    (r : EncounterResult species_t sp1_eats_m sp1_eats_p sp2_eats_m sp2_eats_p)
    (h : encounter req a b = Except.ok r) : r.2.2 = none := by
  by_cases hdead : a.vitality = 0 ∨ b.vitality = 0
  · rw [encounter_of_dead req a b hdead] at h
    cases h
    rfl
  · have ha : 0 < a.vitality := by omega
    have hb : 0 < b.vitality := by omega
    cases sp1_eats_m <;> cases sp1_eats_p <;> cases sp2_eats_m <;> cases sp2_eats_p
    all_goals first
      | exact absurd req (by decide)
      | (rw [encounter_of_gate_closed req a b hmerge rfl] at h; cases h; rfl)
      | (rw [encounter_of_plant_first req a b ha hb] at h; split at h <;> cases h; rfl)
      | (rw [encounter_of_plant_second req a b ha hb] at h; split at h <;> cases h; rfl)
      | (rw [encounter_of_predator_first req a b ha hb] at h
         split_ifs at h <;> first | (cases h; rfl) | (split at h <;> cases h; rfl))
      | (rw [encounter_of_predator_second req a b ha hb] at h
         split_ifs at h <;> first | (cases h; rfl) | (split at h <;> cases h; rfl))
      | (rw [encounter_of_both_meat req a b ha hb (fun hc => hmerge ⟨⟨rfl, hc.1⟩, hc.2⟩)] at h
         split_ifs at h <;> first | (cases h; rfl) | (split at h <;> cases h; rfl))

/-- With equal vitalities, outside the merge, meat-eater and plant-eaten cases
nothing happens. -/
theorem encounter_of_tie_elsewhere
    (req : areBothPlants sp1_eats_m sp1_eats_p sp2_eats_m sp2_eats_p = false)
    (a : Organism species_t sp1_eats_m sp1_eats_p)
    (b : Organism species_t sp2_eats_m sp2_eats_p)
    (htie : a.vitality = b.vitality)
    (hmerge : ¬ ((sp1_eats_m = sp2_eats_m ∧ sp1_eats_p = sp2_eats_p) ∧ a.species = b.species))
    (hmeat : ¬ (sp1_eats_m = true ∧ sp2_eats_m = true))
    (hplant1 : ¬ (sp1_eats_m = false ∧ sp1_eats_p = false ∧ sp2_eats_p = true))
    (hplant2 : ¬ (sp2_eats_m = false ∧ sp2_eats_p = false ∧ sp1_eats_p = true)) :
    encounter req a b = Except.ok (a, b, none) := by
  by_cases hdead : a.vitality = 0 ∨ b.vitality = 0
  · exact encounter_of_dead req a b hdead
  · have ha : 0 < a.vitality := by omega
    have hb : 0 < b.vitality := by omega
    cases sp1_eats_m <;> cases sp1_eats_p <;> cases sp2_eats_m <;> cases sp2_eats_p
    all_goals first
      | exact absurd req (by decide)
      | exact absurd (by decide) hmeat
      | exact absurd (by decide) hplant1
      | exact absurd (by decide) hplant2
      | exact encounter_of_gate_closed req a b hmerge rfl
      | (rw [encounter_of_predator_first req a b ha hb, if_pos (le_of_eq htie)])
      | (rw [encounter_of_predator_second req a b ha hb, if_pos (le_of_eq htie.symm)])

end Branches

/-- The two ways `safeAdd` can end, for arbitrary natural numbers. -/
theorem safeAdd_cases (x y : Nat) :
    (x + y < UINT64_SIZE ∧ safeAdd x y = Except.ok (x + y)) ∨
    (UINT64_SIZE ≤ x + y ∧ safeAdd x y = Except.error Failure.out_of_range) := by
  by_cases hfit : x + y < UINT64_SIZE
  · exact Or.inl ⟨hfit, safeAdd_of_fits hfit⟩
  · refine Or.inr ⟨by omega, ?_⟩
    have hpos : 0 < UINT64_SIZE := by rw [UINT64_SIZE_eq]; decide
    have hwrap : (x + y) % UINT64_SIZE < max x y := by
      by_cases hx : x < UINT64_SIZE
      · by_cases hy : y < UINT64_SIZE
        · exact wrapped_sum_lt_max hx hy (by omega)
        · exact lt_of_lt_of_le (Nat.mod_lt _ hpos) (le_trans (by omega) (le_max_right x y))
      · exact lt_of_lt_of_le (Nat.mod_lt _ hpos) (le_trans (by omega) (le_max_left x y))
    unfold safeAdd
    rw [if_pos hwrap]

/-- The arguments of `safeAdd` commute. -/
theorem safeAdd_comm (x y : Nat) : safeAdd x y = safeAdd y x := by
  unfold safeAdd
  rw [Nat.add_comm x y, max_comm x y]

section Outcomes

variable {species_t : Type} [DecidableEq species_t]
variable {sp1_eats_m sp1_eats_p sp2_eats_m sp2_eats_p : Bool}

/-- Lines 99-117 end in a listed outcome. -/
theorem outcome_of_both_meat {p1 p2 : Bool}
    (req : areBothPlants true p1 true p2 = false)
    (a : Organism species_t true p1) (b : Organism species_t true p2)
    (ha : 0 < a.vitality) (hb : 0 < b.vitality)
    (hmerge : ¬ (p1 = p2 ∧ a.species = b.species)) :
    Outcome a b (encounter req a b) := by
  rw [encounter_of_both_meat req a b ha hb hmerge]
  rcases Nat.lt_trichotomy a.vitality b.vitality with hlt | heq | hgt
  · rw [if_neg (Nat.ne_of_lt hlt), if_pos hlt]
    rcases safeAdd_cases b.vitality (a.vitality / 2) with ⟨hfit, hs⟩ | ⟨hover, hs⟩
    · rw [hs]
      exact Outcome.first_dies ha hlt rfl (Or.inl rfl) hfit
    · rw [hs]
      exact Outcome.overflow ha hb (by omega)
  · rw [if_pos heq]
    exact Outcome.both_die ha hb rfl rfl heq
  · rw [if_neg (Nat.ne_of_gt hgt), if_neg (Nat.lt_asymm hgt)]
    rcases safeAdd_cases a.vitality (b.vitality / 2) with ⟨hfit, hs⟩ | ⟨hover, hs⟩
    · rw [hs]
      exact Outcome.second_dies hb hgt rfl (Or.inl rfl) hfit
    · rw [hs]
      exact Outcome.overflow ha hb (by omega)

/-- Lines 119-124 end in a listed outcome. -/
theorem outcome_of_plant_first {m2 : Bool}
    (req : areBothPlants false false m2 true = false)
    (a : Organism species_t false false) (b : Organism species_t m2 true)
    (ha : 0 < a.vitality) (hb : 0 < b.vitality) :
    Outcome a b (encounter req a b) := by
  rw [encounter_of_plant_first req a b ha hb]
  rcases safeAdd_cases b.vitality a.vitality with ⟨hfit, hs⟩ | ⟨hover, hs⟩
  · rw [hs]
    exact Outcome.first_eaten ha hb ⟨rfl, rfl⟩ rfl hfit
  · rw [hs]
    exact Outcome.overflow ha hb (by omega)

/-- Lines 126-130 end in a listed outcome. -/
theorem outcome_of_plant_second {m1 : Bool}
    (req : areBothPlants m1 true false false = false)
    (a : Organism species_t m1 true) (b : Organism species_t false false)
    (ha : 0 < a.vitality) (hb : 0 < b.vitality) :
    Outcome a b (encounter req a b) := by
  rw [encounter_of_plant_second req a b ha hb]
  rcases safeAdd_cases a.vitality b.vitality with ⟨hfit, hs⟩ | ⟨hover, hs⟩
  · rw [hs]
    exact Outcome.second_eaten ha hb ⟨rfl, rfl⟩ rfl hfit
  · rw [hs]
    exact Outcome.overflow ha hb (by omega)

/-- Lines 132-139 end in a listed outcome. -/
theorem outcome_of_predator_first {p1 : Bool}
    (req : areBothPlants true p1 false true = false)
    (a : Organism species_t true p1) (b : Organism species_t false true)
    (ha : 0 < a.vitality) (hb : 0 < b.vitality) :
    Outcome a b (encounter req a b) := by
  rw [encounter_of_predator_first req a b ha hb]
  by_cases hle : a.vitality ≤ b.vitality
  · rw [if_pos hle]
    exact Outcome.unchanged
  · rw [if_neg hle]
    rcases safeAdd_cases a.vitality (b.vitality / 2) with ⟨hfit, hs⟩ | ⟨hover, hs⟩
    · rw [hs]
      exact Outcome.second_dies hb (by omega) rfl (Or.inr rfl) hfit
    · rw [hs]
      exact Outcome.overflow ha hb (by omega)

/-- Lines 141-149 end in a listed outcome. -/
theorem outcome_of_predator_second {p2 : Bool}
    (req : areBothPlants false true true p2 = false)
    (a : Organism species_t false true) (b : Organism species_t true p2)
    (ha : 0 < a.vitality) (hb : 0 < b.vitality) :
    Outcome a b (encounter req a b) := by
  rw [encounter_of_predator_second req a b ha hb]
  by_cases hle : b.vitality ≤ a.vitality
  · rw [if_pos hle]
    exact Outcome.unchanged
  · rw [if_neg hle]
    rcases safeAdd_cases b.vitality (a.vitality / 2) with ⟨hfit, hs⟩ | ⟨hover, hs⟩
    · rw [hs]
      exact Outcome.first_dies ha (by omega) rfl (Or.inr rfl) hfit
    · rw [hs]
      exact Outcome.overflow ha hb (by omega)

/-- Every call of `encounter` ends in one of the listed outcomes. -/
theorem encounter_outcome
    (req : areBothPlants sp1_eats_m sp1_eats_p sp2_eats_m sp2_eats_p = false)
    (a : Organism species_t sp1_eats_m sp1_eats_p)
    (b : Organism species_t sp2_eats_m sp2_eats_p) :
    Outcome a b (encounter req a b) := by
  by_cases hdead : a.vitality = 0 ∨ b.vitality = 0
  · rw [encounter_of_dead req a b hdead]
    exact Outcome.unchanged
  · have ha : 0 < a.vitality := by omega
    have hb : 0 < b.vitality := by omega
    by_cases hmerge : (sp1_eats_m = sp2_eats_m ∧ sp1_eats_p = sp2_eats_p) ∧
        a.species = b.species
    · rw [encounter_of_merge req a b ha hb hmerge]
      rcases safeAdd_cases a.vitality b.vitality with ⟨hfit, hs⟩ | ⟨hover, hs⟩
      · rw [hs]
        exact Outcome.merged ha hb hmerge.1 hmerge.2 hfit
      · rw [hs]
        exact Outcome.overflow ha hb hover
    · cases sp1_eats_m <;> cases sp1_eats_p <;> cases sp2_eats_m <;> cases sp2_eats_p
      all_goals first
        | exact absurd req (by decide)
        | (rw [encounter_of_gate_closed req a b hmerge rfl]; exact Outcome.unchanged)
        | exact outcome_of_plant_first req a b ha hb
        | exact outcome_of_plant_second req a b ha hb
        | exact outcome_of_predator_first req a b ha hb
        | exact outcome_of_predator_second req a b ha hb
        | exact outcome_of_both_meat req a b ha hb (fun hc => hmerge ⟨⟨rfl, hc.1⟩, hc.2⟩)

end Outcomes

section Swap

variable {species_t : Type} [DecidableEq species_t]
variable {sp1_eats_m sp1_eats_p sp2_eats_m sp2_eats_p : Bool}

/-- Swapping the arguments of two non-merging meat eaters swaps the result. -/
theorem swap_of_both_meat {p1 p2 : Bool}
    (req1 : areBothPlants true p1 true p2 = false)
    (req2 : areBothPlants true p2 true p1 = false)
    (a : Organism species_t true p1) (b : Organism species_t true p2)
    (ha : 0 < a.vitality) (hb : 0 < b.vitality)
    (hmerge : ¬ (p1 = p2 ∧ a.species = b.species)) :
    encounter req2 b a =
      Except.map
        (fun r => (r.2.1, r.1, r.2.2.map (fun o => b.clone_newVitality o.vitality)))
        (encounter req1 a b) := by
  rw [encounter_of_both_meat req1 a b ha hb hmerge,
    encounter_of_both_meat req2 b a hb ha (fun hc => hmerge ⟨hc.1.symm, hc.2.symm⟩)]
  rcases Nat.lt_trichotomy a.vitality b.vitality with hlt | heq | hgt
  · rw [if_neg (Nat.ne_of_lt hlt), if_pos hlt, if_neg (Nat.ne_of_gt hlt),
      if_neg (Nat.lt_asymm hlt)]
    rcases safeAdd_cases b.vitality (a.vitality / 2) with ⟨_, hs⟩ | ⟨_, hs⟩ <;> first | (rw [hs]; done) | (rw [hs]; rfl)
  · rw [if_pos heq, if_pos heq.symm]
    rfl
  · rw [if_neg (Nat.ne_of_gt hgt), if_neg (Nat.lt_asymm hgt), if_neg (Nat.ne_of_lt hgt),
      if_pos hgt]
    rcases safeAdd_cases a.vitality (b.vitality / 2) with ⟨_, hs⟩ | ⟨_, hs⟩ <;> first | (rw [hs]; done) | (rw [hs]; rfl)

/-- Swapping a plant in first position with its eater swaps the result. -/
theorem swap_of_plant_first {m2 : Bool}
    (req1 : areBothPlants false false m2 true = false)
    (req2 : areBothPlants m2 true false false = false)
    (a : Organism species_t false false) (b : Organism species_t m2 true)
    (ha : 0 < a.vitality) (hb : 0 < b.vitality) :
    encounter req2 b a =
      Except.map
        (fun r => (r.2.1, r.1, r.2.2.map (fun o => b.clone_newVitality o.vitality)))
        (encounter req1 a b) := by
  rw [encounter_of_plant_first req1 a b ha hb, encounter_of_plant_second req2 b a hb ha]
  rcases safeAdd_cases b.vitality a.vitality with ⟨_, hs⟩ | ⟨_, hs⟩ <;> first | (rw [hs]; done) | (rw [hs]; rfl)

/-- Swapping a plant in second position with its eater swaps the result. -/
theorem swap_of_plant_second {m1 : Bool}
    (req1 : areBothPlants m1 true false false = false)
    (req2 : areBothPlants false false m1 true = false)
    (a : Organism species_t m1 true) (b : Organism species_t false false)
    (ha : 0 < a.vitality) (hb : 0 < b.vitality) :
    encounter req2 b a =
      Except.map
        (fun r => (r.2.1, r.1, r.2.2.map (fun o => b.clone_newVitality o.vitality)))
        (encounter req1 a b) := by
  rw [encounter_of_plant_second req1 a b ha hb, encounter_of_plant_first req2 b a hb ha]
  rcases safeAdd_cases a.vitality b.vitality with ⟨_, hs⟩ | ⟨_, hs⟩ <;> first | (rw [hs]; done) | (rw [hs]; rfl)

/-- Swapping a meat eater in first position with a herbivore swaps the result. -/
theorem swap_of_predator_first {p1 : Bool}
    (req1 : areBothPlants true p1 false true = false)
    (req2 : areBothPlants false true true p1 = false)
    (a : Organism species_t true p1) (b : Organism species_t false true)
    (ha : 0 < a.vitality) (hb : 0 < b.vitality) :
    encounter req2 b a =
      Except.map
        (fun r => (r.2.1, r.1, r.2.2.map (fun o => b.clone_newVitality o.vitality)))
        (encounter req1 a b) := by
  rw [encounter_of_predator_first req1 a b ha hb, encounter_of_predator_second req2 b a hb ha]
  by_cases hle : a.vitality ≤ b.vitality
  · rw [if_pos hle, if_pos hle]
    rfl
  · rw [if_neg hle, if_neg hle]
    rcases safeAdd_cases a.vitality (b.vitality / 2) with ⟨_, hs⟩ | ⟨_, hs⟩ <;> first | (rw [hs]; done) | (rw [hs]; rfl)

/-- Swapping a meat eater in second position with a herbivore swaps the result. -/
theorem swap_of_predator_second {p2 : Bool}
    (req1 : areBothPlants false true true p2 = false)
    (req2 : areBothPlants true p2 false true = false)
    (a : Organism species_t false true) (b : Organism species_t true p2)
    (ha : 0 < a.vitality) (hb : 0 < b.vitality) :
    encounter req2 b a =
      Except.map
        (fun r => (r.2.1, r.1, r.2.2.map (fun o => b.clone_newVitality o.vitality)))
        (encounter req1 a b) := by
  rw [encounter_of_predator_second req1 a b ha hb, encounter_of_predator_first req2 b a hb ha]
  by_cases hle : b.vitality ≤ a.vitality
  · rw [if_pos hle, if_pos hle]
    rfl
  · rw [if_neg hle, if_neg hle]
    rcases safeAdd_cases b.vitality (a.vitality / 2) with ⟨_, hs⟩ | ⟨_, hs⟩ <;> first | (rw [hs]; done) | (rw [hs]; rfl)

/-- The result of `encounter` on swapped arguments is the swapped result; an
offspring is then a clone of the other parent with the same vitality. -/
theorem encounter_swap
    (req1 : areBothPlants sp1_eats_m sp1_eats_p sp2_eats_m sp2_eats_p = false)
    (req2 : areBothPlants sp2_eats_m sp2_eats_p sp1_eats_m sp1_eats_p = false)
    (a : Organism species_t sp1_eats_m sp1_eats_p)
    (b : Organism species_t sp2_eats_m sp2_eats_p) :
    encounter req2 b a =
      Except.map
        (fun r => (r.2.1, r.1, r.2.2.map (fun o => b.clone_newVitality o.vitality)))
        (encounter req1 a b) := by
  by_cases hdead : a.vitality = 0 ∨ b.vitality = 0
  · rw [encounter_of_dead req1 a b hdead, encounter_of_dead req2 b a hdead.symm]
    rfl
  · have ha : 0 < a.vitality := by omega
    have hb : 0 < b.vitality := by omega
    by_cases hmerge : (sp1_eats_m = sp2_eats_m ∧ sp1_eats_p = sp2_eats_p) ∧
        a.species = b.species
    · rw [encounter_of_merge req1 a b ha hb hmerge,
        encounter_of_merge req2 b a hb ha ⟨⟨hmerge.1.1.symm, hmerge.1.2.symm⟩, hmerge.2.symm⟩,
        safeAdd_comm b.vitality a.vitality]
      rcases safeAdd_cases a.vitality b.vitality with ⟨_, hs⟩ | ⟨_, hs⟩ <;> first | (rw [hs]; done) | (rw [hs]; rfl)
    · have hmerge2 : ¬ ((sp2_eats_m = sp1_eats_m ∧ sp2_eats_p = sp1_eats_p) ∧
          b.species = a.species) :=
        fun hc => hmerge ⟨⟨hc.1.1.symm, hc.1.2.symm⟩, hc.2.symm⟩
      cases sp1_eats_m <;> cases sp1_eats_p <;> cases sp2_eats_m <;> cases sp2_eats_p
      all_goals first
        | exact absurd req1 (by decide)
        | (rw [encounter_of_gate_closed req1 a b hmerge rfl,
            encounter_of_gate_closed req2 b a hmerge2 rfl]; first | done | rfl)
        | exact swap_of_plant_first req1 req2 a b ha hb
        | exact swap_of_plant_second req1 req2 a b ha hb
        | exact swap_of_predator_first req1 req2 a b ha hb
        | exact swap_of_predator_second req1 req2 a b ha hb
        | exact swap_of_both_meat req1 req2 a b ha hb (fun hc => hmerge ⟨⟨rfl, hc.1⟩, hc.2⟩)

end Swap

section Series

variable {species_t : Type} [DecidableEq species_t]
variable {sp1_eats_m sp1_eats_p : Bool}

/-- The overload of lines 152-159 on an empty pack. -/
theorem encounter_series_nil (first : Organism species_t sp1_eats_m sp1_eats_p) :
    encounter_series first [] = Except.ok first := rfl

/-- The overload of lines 161-170 on a pack that starts with `arg`. -/
theorem encounter_series_cons (first : Organism species_t sp1_eats_m sp1_eats_p)
    (arg : SeriesArg species_t sp1_eats_m sp1_eats_p)
    (args : List (SeriesArg species_t sp1_eats_m sp1_eats_p)) :
    encounter_series first (arg :: args) =
      match encounter arg.req first arg.organism2 with
      | Except.error e => Except.error e
      | Except.ok encounterResult => encounter_series encounterResult.1 args := rfl

/-- An abort stays an abort through the rest of the fold. -/
theorem foldl_series_step_error (e : Failure)
    (rest : List (SeriesArg species_t sp1_eats_m sp1_eats_p)) :
    List.foldl series_step (Except.error e) rest = Except.error e := by
  induction rest with
  | nil => rfl
  | cons arg args ih => exact ih

/-- The recursion of `encounter_series` computes the left fold. -/
theorem encounter_series_eq_foldl
    (rest : List (SeriesArg species_t sp1_eats_m sp1_eats_p))
    (first : Organism species_t sp1_eats_m sp1_eats_p) :
    encounter_series first rest = List.foldl series_step (Except.ok first) rest := by
  induction rest generalizing first with
  | nil => rfl
  | cons arg args ih =>
    rw [encounter_series_cons, List.foldl_cons]
    cases hstep : encounter arg.req first arg.organism2 with
    | error e =>
      have hfold : series_step (Except.ok first) arg = Except.error e := by
        simp only [series_step, hstep]
      rw [hfold, foldl_series_step_error]
    | ok r =>
      have hfold : series_step (Except.ok first) arg = Except.ok r.1 := by
        simp only [series_step, hstep]
      rw [hfold]
      exact ih r.1

/-- A dead first organism passes through every series unchanged. -/
theorem encounter_series_of_dead
    (rest : List (SeriesArg species_t sp1_eats_m sp1_eats_p))
    (first : Organism species_t sp1_eats_m sp1_eats_p)
    (hdead : first.vitality = 0) :
    encounter_series first rest = Except.ok first := by
  induction rest with
  | nil => rfl
  | cons arg args ih =>
    rw [encounter_series_cons, encounter_of_dead arg.req first arg.organism2 (Or.inl hdead)]
    exact ih

/-- A series over a concatenated pack is the series over the second part,
started from the result of the series over the first part. -/
theorem encounter_series_append
    (pre suf : List (SeriesArg species_t sp1_eats_m sp1_eats_p))
    (first : Organism species_t sp1_eats_m sp1_eats_p) :
    encounter_series first (pre ++ suf) =
      match encounter_series first pre with
      | Except.error e => Except.error e
      | Except.ok mid => encounter_series mid suf := by
  induction pre generalizing first with
  | nil => rfl
  | cons arg args ih =>
    rw [List.cons_append, encounter_series_cons, encounter_series_cons]
    cases encounter arg.req first arg.organism2 with
    | error e => rfl
    | ok r => exact ih r.1

/-- A returning encounter keeps the species of both participants, and an
offspring has the species of the first. -/
theorem encounter_species {sp2_eats_m sp2_eats_p : Bool}
    (req : areBothPlants sp1_eats_m sp1_eats_p sp2_eats_m sp2_eats_p = false)
    (a : Organism species_t sp1_eats_m sp1_eats_p)
    (b : Organism species_t sp2_eats_m sp2_eats_p)
    (r : EncounterResult species_t sp1_eats_m sp1_eats_p sp2_eats_m sp2_eats_p)
    (h : encounter req a b = Except.ok r) :
    r.1.species = a.species ∧ r.2.1.species = b.species ∧
      ∀ offspring, r.2.2 = some offspring → offspring.species = a.species := by
  have hout := encounter_outcome req a b
  rw [h] at hout
  cases hout <;>
    exact ⟨rfl, rfl, fun offspring ho => by first | (cases ho; done) | (cases ho; rfl)⟩

/-- A returning series keeps the species of the first organism. -/
theorem encounter_series_species
    (rest : List (SeriesArg species_t sp1_eats_m sp1_eats_p))
    (first result : Organism species_t sp1_eats_m sp1_eats_p)
    (h : encounter_series first rest = Except.ok result) :
    result.species = first.species := by
  induction rest generalizing first with
  | nil =>
    rw [encounter_series_nil] at h
    cases h
    rfl
  | cons arg args ih =>
    rw [encounter_series_cons] at h
    cases hstep : encounter arg.req first arg.organism2 with
    | error e =>
      rw [hstep] at h
      cases h
    | ok r =>
      rw [hstep] at h
      rw [ih r.1 h]
      exact (encounter_species arg.req first arg.organism2 r hstep).1

end Series

section OverflowSites

variable {species_t : Type} [DecidableEq species_t]

/-- Lines 105-116 throw exactly when the stronger vitality plus half of the
weaker one does not fit. -/
theorem error_iff_of_both_meat {p1 p2 : Bool}
    (req : areBothPlants true p1 true p2 = false)
    (a : Organism species_t true p1) (b : Organism species_t true p2)
    (ha : 0 < a.vitality) (hb : 0 < b.vitality)
    (hmerge : ¬ (p1 = p2 ∧ a.species = b.species)) :
    encounter req a b = Except.error Failure.out_of_range ↔
      (a.vitality < b.vitality ∧ UINT64_MAX < b.vitality + a.vitality / 2) ∨
      (b.vitality < a.vitality ∧ UINT64_MAX < a.vitality + b.vitality / 2) := by
  have hsucc := UINT64_MAX_succ
  rw [encounter_of_both_meat req a b ha hb hmerge]
  rcases Nat.lt_trichotomy a.vitality b.vitality with hlt | heq | hgt
  · rw [if_neg (Nat.ne_of_lt hlt), if_pos hlt]
    rcases safeAdd_cases b.vitality (a.vitality / 2) with ⟨hfit, hs⟩ | ⟨hover, hs⟩
    · rw [hs]
      constructor
      · intro hc
        cases hc
      · rintro (⟨_, hc⟩ | ⟨hc, _⟩) <;> omega
    · rw [hs]
      exact ⟨fun _ => Or.inl ⟨hlt, by omega⟩, fun _ => rfl⟩
  · rw [if_pos heq]
    constructor
    · intro hc
      cases hc
    · rintro (⟨hc, _⟩ | ⟨hc, _⟩) <;> omega
  · rw [if_neg (Nat.ne_of_gt hgt), if_neg (Nat.lt_asymm hgt)]
    rcases safeAdd_cases a.vitality (b.vitality / 2) with ⟨hfit, hs⟩ | ⟨hover, hs⟩
    · rw [hs]
      constructor
      · intro hc
        cases hc
      · rintro (⟨hc, _⟩ | ⟨_, hc⟩) <;> omega
    · rw [hs]
      exact ⟨fun _ => Or.inr ⟨hgt, by omega⟩, fun _ => rfl⟩

/-- Lines 132-139 throw exactly when the meat eater is strictly more vital and
its vitality plus half of the vitality of the herbivore does not fit. -/
theorem error_iff_of_predator_first {p1 : Bool}
    (req : areBothPlants true p1 false true = false)
    (a : Organism species_t true p1) (b : Organism species_t false true)
    (ha : 0 < a.vitality) (hb : 0 < b.vitality) :
    encounter req a b = Except.error Failure.out_of_range ↔
      (b.vitality < a.vitality ∧ UINT64_MAX < a.vitality + b.vitality / 2) := by
  have hsucc := UINT64_MAX_succ
  rw [encounter_of_predator_first req a b ha hb]
  by_cases hle : a.vitality ≤ b.vitality
  · rw [if_pos hle]
    constructor
    · intro hc
      cases hc
    · rintro ⟨hc, _⟩
      omega
  · rw [if_neg hle]
    rcases safeAdd_cases a.vitality (b.vitality / 2) with ⟨hfit, hs⟩ | ⟨hover, hs⟩
    · rw [hs]
      constructor
      · intro hc
        cases hc
      · rintro ⟨_, hc⟩
        omega
    · rw [hs]
      exact ⟨fun _ => ⟨by omega, by omega⟩, fun _ => rfl⟩

/-- Lines 141-149 throw exactly when the meat eater is strictly more vital and
its vitality plus half of the vitality of the herbivore does not fit. -/
theorem error_iff_of_predator_second {p2 : Bool}
    (req : areBothPlants false true true p2 = false)
    (a : Organism species_t false true) (b : Organism species_t true p2)
    (ha : 0 < a.vitality) (hb : 0 < b.vitality) :
    encounter req a b = Except.error Failure.out_of_range ↔
      (a.vitality < b.vitality ∧ UINT64_MAX < b.vitality + a.vitality / 2) := by
  have hsucc := UINT64_MAX_succ
  rw [encounter_of_predator_second req a b ha hb]
  by_cases hle : b.vitality ≤ a.vitality
  · rw [if_pos hle]
    constructor
    · intro hc
      cases hc
    · rintro ⟨hc, _⟩
      omega
  · rw [if_neg hle]
    rcases safeAdd_cases b.vitality (a.vitality / 2) with ⟨hfit, hs⟩ | ⟨hover, hs⟩
    · rw [hs]
      constructor
      · intro hc
        cases hc
      · rintro ⟨_, hc⟩
        omega
    · rw [hs]
      exact ⟨fun _ => ⟨by omega, by omega⟩, fun _ => rfl⟩

end OverflowSites

/-! ## The rule engine -/

section Rules

variable {species_t : Type} [DecidableEq species_t]
variable {sp1_eats_m sp1_eats_p sp2_eats_m sp2_eats_p : Bool}

/-- C1 (dead-participant invariance): for every accepted pair, if either
participant has vitality 0 the encounter returns both participants as they were
and no offspring, whatever their species, diet categories and the vitality of
the other participant. -/
theorem dead_participant_invariance
    (req : areBothPlants sp1_eats_m sp1_eats_p sp2_eats_m sp2_eats_p = false)
    (a : Organism species_t sp1_eats_m sp1_eats_p)
    (b : Organism species_t sp2_eats_m sp2_eats_p)
    (h : a.vitality = 0 ∨ b.vitality = 0) :
    encounter req a b = Except.ok (a, b, none) :=
  encounter_of_dead req a b h

/-- Witness of C1: a dead carnivore meets a live carnivore of its own species. -/
theorem dead_participant_invariance_witness :
    ((⟨1, 0⟩ : Carnivore Nat).vitality = 0 ∨ (⟨1, 9⟩ : Carnivore Nat).vitality = 0) ∧
    encounter (rfl : areBothPlants true false true false = false)
        (⟨1, 0⟩ : Carnivore Nat) (⟨1, 9⟩ : Carnivore Nat)
      = Except.ok (⟨1, 0⟩, ⟨1, 9⟩, none) :=
  ⟨Or.inl rfl, dead_participant_invariance (rfl : areBothPlants true false true false = false)
    ⟨1, 0⟩ ⟨1, 9⟩ (Or.inl rfl)⟩

/-- C2 (offspring vitality law): for every pair of live organisms that
`encounter` accepts, of the same diet category and the same species, the encounter returns
both parents unchanged and an offspring with the species of the first parent and
vitality `(a.vitality + b.vitality) / 2` when the sum fits in 64 bits, and
throws `out_of_range` when it does not. -/
theorem offspring_vitality_law
    (req : areBothPlants sp1_eats_m sp1_eats_p sp2_eats_m sp2_eats_p = false)
    (a : Organism species_t sp1_eats_m sp1_eats_p)
    (b : Organism species_t sp2_eats_m sp2_eats_p)
    (hcat : sp1_eats_m = sp2_eats_m ∧ sp1_eats_p = sp2_eats_p)
    (hspecies : a.species = b.species)
    (ha : 0 < a.vitality) (hb : 0 < b.vitality)
    (haR : a.vitality ≤ UINT64_MAX) (hbR : b.vitality ≤ UINT64_MAX) :
    (a.vitality + b.vitality ≤ UINT64_MAX →
      encounter req a b =
        Except.ok (a, b, some (Organism.mk a.species ((a.vitality + b.vitality) / 2)))) ∧
    (UINT64_MAX < a.vitality + b.vitality →
      encounter req a b = Except.error Failure.out_of_range) := by
  have hstep := encounter_of_merge req a b ha hb ⟨hcat, hspecies⟩
  have hsucc := UINT64_MAX_succ
  constructor
  · intro hfit
    rw [hstep, safeAdd_of_fits (by omega)]
    rfl
  · intro hover
    rw [hstep, safeAdd_of_overflow (by omega) (by omega) (by omega)]

/-- Witness of C2: two herbivores of species 7 with vitality 3 and 4 get an
offspring of vitality 3. -/
theorem offspring_vitality_law_witness :
    encounter (rfl : areBothPlants false true false true = false)
        (⟨7, 3⟩ : Herbivore Nat) (⟨7, 4⟩ : Herbivore Nat)
      = Except.ok (⟨7, 3⟩, ⟨7, 4⟩, some ⟨7, 3⟩) :=
  (offspring_vitality_law (rfl : areBothPlants false true false true = false)
    (⟨7, 3⟩ : Herbivore Nat) (⟨7, 4⟩ : Herbivore Nat)
    ⟨rfl, rfl⟩ rfl (by decide) (by decide)
    (by rw [UINT64_MAX_eq]; decide) (by rw [UINT64_MAX_eq]; decide)).1
    (by rw [UINT64_MAX_eq]; decide)

/-- C3 (offspring only in the merge case): when the encounter of an accepted
pair returns, the offspring is present if and only if both participants are
alive, have the same diet flags and the same species; otherwise it is absent. -/
theorem offspring_iff_merge
    (req : areBothPlants sp1_eats_m sp1_eats_p sp2_eats_m sp2_eats_p = false)
    (a : Organism species_t sp1_eats_m sp1_eats_p)
    (b : Organism species_t sp2_eats_m sp2_eats_p)
    (r : EncounterResult species_t sp1_eats_m sp1_eats_p sp2_eats_m sp2_eats_p)
    (h : encounter req a b = Except.ok r) :
    ((∃ offspring, r.2.2 = some offspring) ↔
      (0 < a.vitality ∧ 0 < b.vitality ∧
        (sp1_eats_m = sp2_eats_m ∧ sp1_eats_p = sp2_eats_p) ∧ a.species = b.species)) ∧
    (¬ (0 < a.vitality ∧ 0 < b.vitality ∧
        (sp1_eats_m = sp2_eats_m ∧ sp1_eats_p = sp2_eats_p) ∧ a.species = b.species) →
      r.2.2 = none) := by
  by_cases hdead : a.vitality = 0 ∨ b.vitality = 0
  · rw [encounter_of_dead req a b hdead] at h
    cases h
    have hnot : ¬ (0 < a.vitality ∧ 0 < b.vitality ∧
        (sp1_eats_m = sp2_eats_m ∧ sp1_eats_p = sp2_eats_p) ∧ a.species = b.species) := by
      rintro ⟨h1, h2, -⟩
      omega
    exact ⟨⟨fun ⟨o, ho⟩ => (by cases ho), fun hc => absurd hc hnot⟩, fun _ => rfl⟩
  · have ha : 0 < a.vitality := by omega
    have hb : 0 < b.vitality := by omega
    by_cases hmerge : (sp1_eats_m = sp2_eats_m ∧ sp1_eats_p = sp2_eats_p) ∧
        a.species = b.species
    · rw [encounter_of_merge req a b ha hb hmerge] at h
      have hall : 0 < a.vitality ∧ 0 < b.vitality ∧
          (sp1_eats_m = sp2_eats_m ∧ sp1_eats_p = sp2_eats_p) ∧ a.species = b.species :=
        ⟨ha, hb, hmerge⟩
      split at h
      · cases h
      · cases h
        exact ⟨⟨fun _ => hall, fun _ => ⟨_, rfl⟩⟩, fun hc => absurd hall hc⟩
    · have hnone := encounter_offspring_none req a b hmerge r h
      have hnot : ¬ (0 < a.vitality ∧ 0 < b.vitality ∧
          (sp1_eats_m = sp2_eats_m ∧ sp1_eats_p = sp2_eats_p) ∧ a.species = b.species) :=
        fun hc => hmerge hc.2.2
      refine ⟨⟨?_, fun hc => absurd hc hnot⟩, fun _ => hnone⟩
      rintro ⟨o, ho⟩
      rw [hnone] at ho
      cases ho

/-- Witness of C3: two omnivores of species 2 with vitality 6 and 9 merge, and
the offspring is present. -/
theorem offspring_iff_merge_witness :
    encounter (rfl : areBothPlants true true true true = false)
        (⟨2, 6⟩ : Omnivore Nat) (⟨2, 9⟩ : Omnivore Nat)
      = Except.ok (⟨2, 6⟩, ⟨2, 9⟩, some ⟨2, 7⟩) ∧
    ((∃ offspring, (some ⟨2, 7⟩ : Option (Omnivore Nat)) = some offspring) ↔
      (0 < 6 ∧ 0 < 9 ∧ (true = true ∧ true = true) ∧ 2 = 2)) :=
  ⟨by decide,
    (offspring_iff_merge (rfl : areBothPlants true true true true = false)
      (⟨2, 6⟩ : Omnivore Nat) (⟨2, 9⟩ : Omnivore Nat) (⟨2, 6⟩, ⟨2, 9⟩, some ⟨2, 7⟩)
      (by decide)).1⟩

/-- C4 (mutual meat-eater tie kills both): two live meat eaters (carnivore or
omnivore, in any combination) that are not of the same category and species and
have equal vitality both end with vitality 0, and there is no offspring. -/
theorem meat_eaters_tie_kills_both {p1 p2 : Bool}
    (req : areBothPlants true p1 true p2 = false)
    (a : Organism species_t true p1) (b : Organism species_t true p2)
    (ha : 0 < a.vitality) (hb : 0 < b.vitality)
    (hmerge : ¬ (p1 = p2 ∧ a.species = b.species))
    (htie : a.vitality = b.vitality) :
    encounter req a b =
      Except.ok (a.clone_newVitality 0, b.clone_newVitality 0, none) := by
  rw [encounter_of_both_meat req a b ha hb hmerge, if_pos htie]

/-- Witness of C4: two carnivores of different species with vitality 5 and 5. -/
theorem meat_eaters_tie_kills_both_witness :
    encounter (rfl : areBothPlants true false true false = false)
        (⟨0, 5⟩ : Carnivore Nat) (⟨1, 5⟩ : Carnivore Nat)
      = Except.ok (⟨0, 0⟩, ⟨1, 0⟩, none) :=
  meat_eaters_tie_kills_both (rfl : areBothPlants true false true false = false)
    (⟨0, 5⟩ : Carnivore Nat) (⟨1, 5⟩ : Carnivore Nat) (by decide) (by decide)
    (by decide) rfl

/-- C5 (meat eater against meat eater, unequal vitality): of two live meat
eaters that are not of the same category and species, the one with the smaller
vitality ends at 0 and the other gains half of the vitality of the loser (rounded
down), provided that sum fits in 64 bits; there is no offspring. -/
theorem meat_eaters_stronger_wins {p1 p2 : Bool}
    (req : areBothPlants true p1 true p2 = false)
    (a : Organism species_t true p1) (b : Organism species_t true p2)
    (ha : 0 < a.vitality) (hb : 0 < b.vitality)
    (hmerge : ¬ (p1 = p2 ∧ a.species = b.species)) :
    (a.vitality > b.vitality → a.vitality + b.vitality / 2 ≤ UINT64_MAX →
      encounter req a b =
        Except.ok (a.clone_newVitality (a.vitality + b.vitality / 2),
          b.clone_newVitality 0, none)) ∧
    (a.vitality < b.vitality → b.vitality + a.vitality / 2 ≤ UINT64_MAX →
      encounter req a b =
        Except.ok (a.clone_newVitality 0,
          b.clone_newVitality (b.vitality + a.vitality / 2), none)) := by
  have hstep := encounter_of_both_meat req a b ha hb hmerge
  have hsucc := UINT64_MAX_succ
  constructor
  · intro hgt hfit
    have hne : ¬ a.vitality = b.vitality := by omega
    have hnlt : ¬ a.vitality < b.vitality := by omega
    rw [hstep, if_neg hne, if_neg hnlt, safeAdd_of_fits (by omega)]
  · intro hlt hfit
    have hne : ¬ a.vitality = b.vitality := by omega
    rw [hstep, if_neg hne, if_pos hlt, safeAdd_of_fits (by omega)]

/-- Witness of C5: a carnivore of vitality 10 meets a carnivore of another
species with vitality 4 and ends at 12; the other ends at 0. -/
theorem meat_eaters_stronger_wins_witness :
    encounter (rfl : areBothPlants true false true false = false)
        (⟨0, 10⟩ : Carnivore Nat) (⟨1, 4⟩ : Carnivore Nat)
      = Except.ok (⟨0, 12⟩, ⟨1, 0⟩, none) :=
  (meat_eaters_stronger_wins (rfl : areBothPlants true false true false = false)
    (⟨0, 10⟩ : Carnivore Nat) (⟨1, 4⟩ : Carnivore Nat) (by decide) (by decide)
    (by decide)).1 (by decide) (by rw [UINT64_MAX_eq]; decide)

/-- C6 (plant fully consumed): when a live plant meets a live plant eater
(herbivore or omnivore) of any species and the two vitalities add up within 64
bits, the plant ends at 0 and the eater at the sum of both vitalities, in either
argument order and whichever vitality is larger; there is no offspring. -/
theorem plant_fully_consumed {m : Bool}
    (req1 : areBothPlants false false m true = false)
    (req2 : areBothPlants m true false false = false)
    (p : Plant species_t) (e : Organism species_t m true)
    (hp : 0 < p.vitality) (he : 0 < e.vitality)
    (hfit : p.vitality + e.vitality ≤ UINT64_MAX) :
    encounter req1 p e =
      Except.ok (p.clone_newVitality 0,
        e.clone_newVitality (e.vitality + p.vitality), none) ∧
    encounter req2 e p =
      Except.ok (e.clone_newVitality (e.vitality + p.vitality),
        p.clone_newVitality 0, none) := by
  have hsucc := UINT64_MAX_succ
  constructor
  · rw [encounter_of_plant_first req1 p e hp he, safeAdd_of_fits (by omega)]
  · rw [encounter_of_plant_second req2 e p he hp, safeAdd_of_fits (by omega)]

/-- Witness of C6: a herbivore of vitality 3 meets a plant of vitality 7. -/
theorem plant_fully_consumed_witness :
    encounter (rfl : areBothPlants false false false true = false)
        (⟨1, 7⟩ : Plant Nat) (⟨0, 3⟩ : Herbivore Nat)
      = Except.ok (⟨1, 0⟩, ⟨0, 10⟩, none) ∧
    encounter (rfl : areBothPlants false true false false = false)
        (⟨0, 3⟩ : Herbivore Nat) (⟨1, 7⟩ : Plant Nat)
      = Except.ok (⟨0, 10⟩, ⟨1, 0⟩, none) :=
  plant_fully_consumed (rfl : areBothPlants false false false true = false)
    (rfl : areBothPlants false true false false = false)
    (⟨1, 7⟩ : Plant Nat) (⟨0, 3⟩ : Herbivore Nat) (by decide) (by decide)
    (by rw [UINT64_MAX_eq]; decide)

/-- C7 (asymmetric meat predation): when a live meat eater (carnivore or
omnivore) meets a live herbivore, in either argument order, nothing changes if
the meat eater is not strictly more vital; otherwise the meat eater ends with
its own vitality plus half of the vitality of the herbivore (rounded down, if
the sum fits in 64 bits), the herbivore ends with vitality 0, both keep their
species, and there is never an offspring. -/
theorem asymmetric_meat_predation {p1 : Bool}
    (req1 : areBothPlants true p1 false true = false)
    (req2 : areBothPlants false true true p1 = false)
    (m : Organism species_t true p1) (h : Herbivore species_t)
    (hm : 0 < m.vitality) (hh : 0 < h.vitality) :
    (m.vitality ≤ h.vitality →
      encounter req1 m h = Except.ok (m, h, none) ∧
      encounter req2 h m = Except.ok (h, m, none)) ∧
    (m.vitality > h.vitality → m.vitality + h.vitality / 2 ≤ UINT64_MAX →
      encounter req1 m h =
        Except.ok (Organism.mk m.species (m.vitality + h.vitality / 2),
          Organism.mk h.species 0, none) ∧
      encounter req2 h m =
        Except.ok (Organism.mk h.species 0,
          Organism.mk m.species (m.vitality + h.vitality / 2), none)) := by
  have hsucc := UINT64_MAX_succ
  have h1 := encounter_of_predator_first req1 m h hm hh
  have h2 := encounter_of_predator_second req2 h m hh hm
  constructor
  · intro hle
    rw [h1, h2, if_pos hle, if_pos hle]
    exact ⟨rfl, rfl⟩
  · intro hgt hfit
    have hnle : ¬ m.vitality ≤ h.vitality := by omega
    rw [h1, h2, if_neg hnle, if_neg hnle, safeAdd_of_fits (by omega)]
    exact ⟨rfl, rfl⟩

/-- Witness of C7: a carnivore of vitality 3 and a herbivore of vitality 8 leave
each other unchanged, and a carnivore of vitality 9 that meets a herbivore of
vitality 6 ends at 12 while the herbivore ends at 0, in both argument orders. -/
theorem asymmetric_meat_predation_witness :
    (encounter (rfl : areBothPlants true false false true = false)
        (⟨0, 3⟩ : Carnivore Nat) (⟨1, 8⟩ : Herbivore Nat)
      = Except.ok (⟨0, 3⟩, ⟨1, 8⟩, none) ∧
    encounter (rfl : areBothPlants false true true false = false)
        (⟨1, 8⟩ : Herbivore Nat) (⟨0, 3⟩ : Carnivore Nat)
      = Except.ok (⟨1, 8⟩, ⟨0, 3⟩, none)) ∧
    (encounter (rfl : areBothPlants true false false true = false)
        (⟨0, 9⟩ : Carnivore Nat) (⟨1, 6⟩ : Herbivore Nat)
      = Except.ok (⟨0, 12⟩, ⟨1, 0⟩, none) ∧
    encounter (rfl : areBothPlants false true true false = false)
        (⟨1, 6⟩ : Herbivore Nat) (⟨0, 9⟩ : Carnivore Nat)
      = Except.ok (⟨1, 0⟩, ⟨0, 12⟩, none)) :=
  ⟨(asymmetric_meat_predation (rfl : areBothPlants true false false true = false)
      (rfl : areBothPlants false true true false = false)
      (⟨0, 3⟩ : Carnivore Nat) (⟨1, 8⟩ : Herbivore Nat) (by decide) (by decide)).1
      (by decide),
    (asymmetric_meat_predation (rfl : areBothPlants true false false true = false)
      (rfl : areBothPlants false true true false = false)
      (⟨0, 9⟩ : Carnivore Nat) (⟨1, 6⟩ : Herbivore Nat) (by decide) (by decide)).2
      (by decide) (by rw [UINT64_MAX_eq]; decide)⟩

/-- C9 as stated fails when a plant is eaten: a live plant and a live herbivore
of equal vitality 5 are an accepted pair outside the meat-eater case, yet the
plant ends at 0 and the herbivore at 10. -/
theorem tie_break_fails_for_eaten_plant :
    (⟨0, 5⟩ : Plant Nat).vitality = (⟨1, 5⟩ : Herbivore Nat).vitality ∧
    encounter (rfl : areBothPlants false false false true = false)
        (⟨0, 5⟩ : Plant Nat) (⟨1, 5⟩ : Herbivore Nat)
      = Except.ok (⟨0, 0⟩, ⟨1, 10⟩, none) ∧
    ¬ (∀ r, encounter (rfl : areBothPlants false false false true = false)
          (⟨0, 5⟩ : Plant Nat) (⟨1, 5⟩ : Herbivore Nat) = Except.ok r →
        r.1.vitality = 5 ∧ r.2.1.vitality = 5) := by
  refine ⟨rfl, by decide, fun hall => ?_⟩
  have hbad := hall (⟨0, 0⟩, ⟨1, 10⟩, none) (by decide)
  exact absurd hbad.1 (by decide)

/-- C9, amended (tie-break rule): for every accepted pair of live organisms of
equal vitality, (1) two meat eaters that do not merge both end at vitality 0;
(2), (3) when one is a plant and the other eats plants, the plant ends at 0 and
the eater at the sum of both vitalities, if that fits in 64 bits; (4) in every
other case a returning encounter leaves both participants unchanged, and the
encounter returns whenever the vitality sum fits in 64 bits. -/
theorem tie_break_rule
    (req : areBothPlants sp1_eats_m sp1_eats_p sp2_eats_m sp2_eats_p = false)
    (a : Organism species_t sp1_eats_m sp1_eats_p)
    (b : Organism species_t sp2_eats_m sp2_eats_p)
    (ha : 0 < a.vitality) (hb : 0 < b.vitality)
    (htie : a.vitality = b.vitality) :
    ((sp1_eats_m = true ∧ sp2_eats_m = true) →
      ¬ ((sp1_eats_m = sp2_eats_m ∧ sp1_eats_p = sp2_eats_p) ∧ a.species = b.species) →
      encounter req a b =
        Except.ok (a.clone_newVitality 0, b.clone_newVitality 0, none)) ∧
    ((sp1_eats_m = false ∧ sp1_eats_p = false ∧ sp2_eats_p = true) →
      a.vitality + b.vitality ≤ UINT64_MAX →
      encounter req a b =
        Except.ok (a.clone_newVitality 0,
          b.clone_newVitality (b.vitality + a.vitality), none)) ∧
    ((sp2_eats_m = false ∧ sp2_eats_p = false ∧ sp1_eats_p = true) →
      a.vitality + b.vitality ≤ UINT64_MAX →
      encounter req a b =
        Except.ok (a.clone_newVitality (a.vitality + b.vitality),
          b.clone_newVitality 0, none)) ∧
    (¬ ((sp1_eats_m = true ∧ sp2_eats_m = true) ∧
        ¬ ((sp1_eats_m = sp2_eats_m ∧ sp1_eats_p = sp2_eats_p) ∧ a.species = b.species)) →
      ¬ (sp1_eats_m = false ∧ sp1_eats_p = false ∧ sp2_eats_p = true) →
      ¬ (sp2_eats_m = false ∧ sp2_eats_p = false ∧ sp1_eats_p = true) →
      (∀ r, encounter req a b = Except.ok r → r.1 = a ∧ r.2.1 = b) ∧
      (a.vitality + b.vitality ≤ UINT64_MAX → ∃ r, encounter req a b = Except.ok r)) := by
  have hsucc := UINT64_MAX_succ
  refine ⟨?_, ?_, ?_, ?_⟩
  · rintro ⟨h1, h2⟩ hmerge
    subst h1 h2
    rw [encounter_of_both_meat req a b ha hb (fun hc => hmerge ⟨⟨rfl, hc.1⟩, hc.2⟩),
      if_pos htie]
  · rintro ⟨h1, h2, h3⟩ hfit
    subst h1 h2 h3
    rw [encounter_of_plant_first req a b ha hb, safeAdd_of_fits (by omega)]
  · rintro ⟨h1, h2, h3⟩ hfit
    subst h1 h2 h3
    rw [encounter_of_plant_second req a b ha hb, safeAdd_of_fits (by omega)]
  · intro hmeat hplant1 hplant2
    by_cases hmerge : (sp1_eats_m = sp2_eats_m ∧ sp1_eats_p = sp2_eats_p) ∧
        a.species = b.species
    · have hstep := encounter_of_merge req a b ha hb hmerge
      constructor
      · intro r hr
        rw [hstep] at hr
        split at hr
        · cases hr
        · cases hr
          exact ⟨rfl, rfl⟩
      · intro hfit
        rw [hstep, safeAdd_of_fits (by omega)]
        exact ⟨_, rfl⟩
    · have hstep := encounter_of_tie_elsewhere req a b htie hmerge
        (fun hc => hmeat ⟨hc, hmerge⟩) hplant1 hplant2
      rw [hstep]
      constructor
      · intro r hr
        cases hr
        exact ⟨rfl, rfl⟩
      · intro _
        exact ⟨_, rfl⟩

/-- Witness of C9: a plant and an omnivore of equal vitality 4; the plant is
eaten and the omnivore ends at 8. -/
theorem tie_break_rule_witness :
    encounter (rfl : areBothPlants false false true true = false)
        (⟨0, 4⟩ : Plant Nat) (⟨1, 4⟩ : Omnivore Nat)
      = Except.ok (⟨0, 0⟩, ⟨1, 8⟩, none) :=
  (tie_break_rule (rfl : areBothPlants false false true true = false)
    (⟨0, 4⟩ : Plant Nat) (⟨1, 4⟩ : Omnivore Nat) (by decide) (by decide) rfl).2.1
    ⟨rfl, rfl, rfl⟩ (by rw [UINT64_MAX_eq]; decide)

end Rules

/-! ## Overflow-checked addition -/

/-- C10 (`safeAdd` contract): for all 64-bit `a`, `b`, `safeAdd a b` returns the
exact sum `a + b` if and only if `a + b ≤ 2^64 - 1`, and throws `out_of_range`
if and only if it does not; the wraparound test `(a + b) mod 2^64 < max a b` is
true exactly when `a + b ≥ 2^64`. -/
theorem safeAdd_contract (a b : Nat) (ha : a ≤ UINT64_MAX) (hb : b ≤ UINT64_MAX) :
    (safeAdd a b = Except.ok (a + b) ↔ a + b ≤ UINT64_MAX) ∧
    (safeAdd a b = Except.error Failure.out_of_range ↔ UINT64_MAX < a + b) ∧
    ((a + b) % UINT64_SIZE < max a b ↔ UINT64_SIZE ≤ a + b) := by
  have hsucc := UINT64_MAX_succ
  by_cases hfit : a + b < UINT64_SIZE
  · have hok := safeAdd_of_fits hfit
    have hmax : ¬ ((a + b) % UINT64_SIZE < max a b) := by
      rw [Nat.mod_eq_of_lt hfit, not_lt]
      exact max_le (Nat.le_add_right a b) (Nat.le_add_left b a)
    refine ⟨⟨fun _ => by omega, fun _ => hok⟩, ⟨fun herr => ?_, fun hover => by omega⟩,
      ⟨fun hw => absurd hw hmax, fun hover => by omega⟩⟩
    rw [hok] at herr
    cases herr
  · have herr := safeAdd_of_overflow (a := a) (b := b) (by omega) (by omega) (by omega)
    refine ⟨⟨fun hok => ?_, fun hle => by omega⟩, ⟨fun _ => by omega, fun _ => herr⟩,
      ⟨fun _ => by omega, fun _ => wrapped_sum_lt_max (by omega) (by omega) (by omega)⟩⟩
    rw [herr] at hok
    cases hok

/-- Witness of C10: the largest value plus one does not fit. -/
theorem safeAdd_contract_witness :
    safeAdd 18446744073709551615 1 = Except.error Failure.out_of_range :=
  (safeAdd_contract 18446744073709551615 1
    (by rw [UINT64_MAX_eq]) (by rw [UINT64_MAX_eq]; decide)).2.1.mpr
    (by rw [UINT64_MAX_eq]; decide)

/-! ## The series and the overflow rule -/

section SeriesRules

variable {species_t : Type} [DecidableEq species_t]
variable {sp1_eats_m sp1_eats_p sp2_eats_m sp2_eats_p : Bool}

/-- C11 as stated fails when no sum is computed: two herbivores of different
species, each with the largest vitality, have a vitality sum above `2^64 - 1`,
yet `encounter` returns both unchanged and `encounter_series` returns the first. -/
theorem overflow_not_raised_by_closed_gate :
    UINT64_MAX < (⟨0, 18446744073709551615⟩ : Herbivore Nat).vitality +
      (⟨1, 18446744073709551615⟩ : Herbivore Nat).vitality ∧
    encounter (rfl : areBothPlants false true false true = false)
        (⟨0, 18446744073709551615⟩ : Herbivore Nat) (⟨1, 18446744073709551615⟩ : Herbivore Nat)
      = Except.ok (⟨0, 18446744073709551615⟩, ⟨1, 18446744073709551615⟩, none) ∧
    encounter_series (⟨0, 18446744073709551615⟩ : Herbivore Nat)
        [SeriesArg.mk false true rfl ⟨1, 18446744073709551615⟩]
      = Except.ok ⟨0, 18446744073709551615⟩ := by
  refine ⟨by rw [UINT64_MAX_eq]; decide, by decide, by decide⟩

/-- C11, amended (overflow): for every accepted pair of 64-bit vitalities whose
sum exceeds `2^64 - 1`, `encounter` throws `out_of_range` exactly when the
branch that applies computes a sum that does not fit: always when the pair
merges (same diet flags and species) and when one is a plant and the other eats
plants, where the two full vitalities are added; and, for a pair that does not
merge, when a meat eater is strictly more vital than an opponent that is not a
plant and its vitality plus half of the vitality of the opponent exceeds
`2^64 - 1`.  `encounter_series` on the pair throws exactly when `encounter`
does. -/
theorem overflow_raised_when_sum_computed
    (req : areBothPlants sp1_eats_m sp1_eats_p sp2_eats_m sp2_eats_p = false)
    (a : Organism species_t sp1_eats_m sp1_eats_p)
    (b : Organism species_t sp2_eats_m sp2_eats_p)
    (haR : a.vitality ≤ UINT64_MAX) (hbR : b.vitality ≤ UINT64_MAX)
    (hover : UINT64_MAX < a.vitality + b.vitality) :
    (encounter req a b = Except.error Failure.out_of_range ↔
      (((sp1_eats_m = sp2_eats_m ∧ sp1_eats_p = sp2_eats_p) ∧ a.species = b.species) ∨
        (sp1_eats_m = false ∧ sp1_eats_p = false ∧ sp2_eats_p = true) ∨
        (sp2_eats_m = false ∧ sp2_eats_p = false ∧ sp1_eats_p = true) ∨
        (¬ ((sp1_eats_m = sp2_eats_m ∧ sp1_eats_p = sp2_eats_p) ∧ a.species = b.species) ∧
          sp2_eats_m = true ∧ (sp1_eats_m = true ∨ sp1_eats_p = true) ∧
          a.vitality < b.vitality ∧ UINT64_MAX < b.vitality + a.vitality / 2) ∨
        (¬ ((sp1_eats_m = sp2_eats_m ∧ sp1_eats_p = sp2_eats_p) ∧ a.species = b.species) ∧
          sp1_eats_m = true ∧ (sp2_eats_m = true ∨ sp2_eats_p = true) ∧
          b.vitality < a.vitality ∧ UINT64_MAX < a.vitality + b.vitality / 2))) ∧
    (encounter_series a [SeriesArg.mk sp2_eats_m sp2_eats_p req b]
        = Except.error Failure.out_of_range ↔
      encounter req a b = Except.error Failure.out_of_range) := by
  have hsucc := UINT64_MAX_succ
  have ha : 0 < a.vitality := by omega
  have hb : 0 < b.vitality := by omega
  have hser : encounter_series a [SeriesArg.mk sp2_eats_m sp2_eats_p req b]
      = Except.error Failure.out_of_range ↔
      encounter req a b = Except.error Failure.out_of_range := by
    cases hE : encounter req a b with
    | error e =>
      have hs : encounter_series a [SeriesArg.mk sp2_eats_m sp2_eats_p req b]
          = Except.error e := by
        rw [encounter_series_cons]
        simp only [hE]
      rw [hs]
      exact ⟨fun hc => (by cases hc; rfl), fun hc => (by cases hc; rfl)⟩
    | ok r =>
      have hs : encounter_series a [SeriesArg.mk sp2_eats_m sp2_eats_p req b]
          = Except.ok r.1 := by
        rw [encounter_series_cons]
        simp only [hE]
        rfl
      rw [hs]
      exact ⟨fun hc => (by cases hc), fun hc => (by cases hc)⟩
  refine ⟨?_, hser⟩
  by_cases hmerge : (sp1_eats_m = sp2_eats_m ∧ sp1_eats_p = sp2_eats_p) ∧
      a.species = b.species
  · have henc : encounter req a b = Except.error Failure.out_of_range := by
      rw [encounter_of_merge req a b ha hb hmerge,
        safeAdd_of_overflow (by omega) (by omega) (by omega)]
    exact ⟨fun _ => Or.inl hmerge, fun _ => henc⟩
  · cases sp1_eats_m <;> cases sp1_eats_p <;> cases sp2_eats_m <;> cases sp2_eats_p
    all_goals first
      | exact absurd req (by decide)
      | (rw [encounter_of_gate_closed req a b hmerge rfl]
         simp_all)
      | (rw [encounter_of_plant_first req a b ha hb,
           safeAdd_of_overflow (by omega) (by omega) (by omega)]
         simp)
      | (rw [encounter_of_plant_second req a b ha hb,
           safeAdd_of_overflow (by omega) (by omega) (by omega)]
         simp)
      | (rw [error_iff_of_predator_first req a b ha hb]
         simp_all)
      | (rw [error_iff_of_predator_second req a b ha hb]
         simp_all)
      | (rw [error_iff_of_both_meat req a b ha hb (fun hc => hmerge ⟨⟨rfl, hc.1⟩, hc.2⟩)]
         simp_all)

/-- Witness of C11: a carnivore of vitality `2^64 - 1` that meets a herbivore of
vitality 2 would end at `2^64 - 1 + 1`, so the encounter and the series throw. -/
theorem overflow_raised_when_sum_computed_witness :
    encounter (rfl : areBothPlants true false false true = false)
        (⟨0, 18446744073709551615⟩ : Carnivore Nat) (⟨1, 2⟩ : Herbivore Nat)
      = Except.error Failure.out_of_range ∧
    encounter_series (⟨0, 18446744073709551615⟩ : Carnivore Nat)
        [SeriesArg.mk false true rfl ⟨1, 2⟩]
      = Except.error Failure.out_of_range := by
  have hiff := overflow_raised_when_sum_computed
    (rfl : areBothPlants true false false true = false)
    (⟨0, 18446744073709551615⟩ : Carnivore Nat) (⟨1, 2⟩ : Herbivore Nat)
    (by rw [UINT64_MAX_eq]) (by rw [UINT64_MAX_eq]; decide) (by rw [UINT64_MAX_eq]; decide)
  have henc := hiff.1.mpr (Or.inr (Or.inr (Or.inr (Or.inr
    ⟨by decide, rfl, Or.inr rfl, by decide, by rw [UINT64_MAX_eq]; decide⟩))))
  exact ⟨henc, hiff.2.mpr henc⟩

/-- C12 (series is a left-to-right fold): `encounter_series first rest` is the
left fold over `rest`, from `first`, of the step that keeps the first component
of `encounter acc next` and keeps an abort once it happened; the series of the
empty pack is `first`, and the series of two organisms `Y`, `Z` is the first
component of the encounter with `Z` of the first component of the encounter
with `Y`; an exception thrown at any step ends the whole series with that
exception. -/
theorem series_is_left_fold
    (first : Organism species_t sp1_eats_m sp1_eats_p)
    (rest : List (SeriesArg species_t sp1_eats_m sp1_eats_p))
    (Y Z : SeriesArg species_t sp1_eats_m sp1_eats_p) :
    encounter_series first rest = series_left_fold first rest ∧
    encounter_series first [] = Except.ok first ∧
    encounter_series first [Y, Z] =
      Except.bind (encounter Y.req first Y.organism2) (fun afterY =>
        Except.map (fun afterZ => afterZ.1) (encounter Z.req afterY.1 Z.organism2)) ∧
    (∀ before e, encounter_series first before = Except.error e →
      encounter_series first (before ++ rest) = Except.error e) := by
  refine ⟨encounter_series_eq_foldl rest first, rfl, ?_, ?_⟩
  case refine_2 =>
    intro before e hbefore
    rw [encounter_series_append, hbefore]
  rw [encounter_series_cons]
  cases encounter Y.req first Y.organism2 with
  | error e => rfl
  | ok afterY =>
    show encounter_series afterY.1 [Z] =
      Except.map (fun afterZ => afterZ.1) (encounter Z.req afterY.1 Z.organism2)
    rw [encounter_series_cons]
    cases encounter Z.req afterY.1 Z.organism2 with
    | error e => rfl
    | ok afterZ => rfl

/-- C13 (order of the series matters): a carnivore `X` of vitality 5 that meets
a herbivore of vitality 4 and then a carnivore of another species of vitality 6
ends at vitality 10, and ends at vitality 0 when it meets them in the other
order. -/
theorem series_order_matters :
    encounter_series (⟨0, 5⟩ : Carnivore Nat)
        [SeriesArg.mk false true rfl ⟨1, 4⟩, SeriesArg.mk true false rfl ⟨2, 6⟩]
      = Except.ok ⟨0, 10⟩ ∧
    encounter_series (⟨0, 5⟩ : Carnivore Nat)
        [SeriesArg.mk true false rfl ⟨2, 6⟩, SeriesArg.mk false true rfl ⟨1, 4⟩]
      = Except.ok ⟨0, 0⟩ ∧
    encounter_series (⟨0, 5⟩ : Carnivore Nat)
        [SeriesArg.mk false true rfl ⟨1, 4⟩, SeriesArg.mk true false rfl ⟨2, 6⟩]
      ≠ encounter_series (⟨0, 5⟩ : Carnivore Nat)
        [SeriesArg.mk true false rfl ⟨2, 6⟩, SeriesArg.mk false true rfl ⟨1, 4⟩] := by
  refine ⟨by decide, by decide, by decide⟩

end SeriesRules

/-! ## Invariants of the rule engine -/

section Invariants

variable {species_t : Type} [DecidableEq species_t]
variable {sp1_eats_m sp1_eats_p sp2_eats_m sp2_eats_p : Bool}

/-- C14 (identity is preserved): when the encounter of an accepted pair returns,
each participant of the result is the input participant with at most its
vitality replaced (the diet flags are part of its type and the species is
equal), and an offspring is such a copy of the first participant; likewise a
returning series yields the first organism with at most its vitality replaced. -/
theorem identity_preserved
    (req : areBothPlants sp1_eats_m sp1_eats_p sp2_eats_m sp2_eats_p = false)
    (a : Organism species_t sp1_eats_m sp1_eats_p)
    (b : Organism species_t sp2_eats_m sp2_eats_p)
    (rest : List (SeriesArg species_t sp1_eats_m sp1_eats_p)) :
    (∀ r, encounter req a b = Except.ok r →
      (r.1.species = a.species ∧ r.1 = a.clone_newVitality r.1.vitality) ∧
      (r.2.1.species = b.species ∧ r.2.1 = b.clone_newVitality r.2.1.vitality) ∧
      (∀ offspring, r.2.2 = some offspring →
        offspring.species = a.species ∧
        offspring = a.clone_newVitality offspring.vitality)) ∧
    (∀ result, encounter_series a rest = Except.ok result →
      result.species = a.species ∧ result = a.clone_newVitality result.vitality) := by
  have hclone : ∀ {m p : Bool} (x y : Organism species_t m p),
      y.species = x.species → y = x.clone_newVitality y.vitality := by
    intro m p x y hxy
    cases y
    cases x
    simp only [Organism.clone_newVitality] at hxy ⊢
    rw [hxy]
  constructor
  · intro r h
    obtain ⟨h1, h2, h3⟩ := encounter_species req a b r h
    exact ⟨⟨h1, hclone a r.1 h1⟩, ⟨h2, hclone b r.2.1 h2⟩,
      fun offspring ho => ⟨h3 offspring ho, hclone a offspring (h3 offspring ho)⟩⟩
  · intro result h
    have hs := encounter_series_species rest a result h
    exact ⟨hs, hclone a result hs⟩

/-- Witness of C14: a carnivore of vitality 10 beats one of vitality 4 and is
returned as the same carnivore with vitality 12. -/
theorem identity_preserved_witness :
    encounter (rfl : areBothPlants true false true false = false)
        (⟨0, 10⟩ : Carnivore Nat) (⟨1, 4⟩ : Carnivore Nat)
      = Except.ok (⟨0, 12⟩, ⟨1, 0⟩, none) ∧
    ((⟨0, 12⟩ : Carnivore Nat).species = (⟨0, 10⟩ : Carnivore Nat).species ∧
      (⟨0, 12⟩ : Carnivore Nat) = (⟨0, 10⟩ : Carnivore Nat).clone_newVitality 12) :=
  ⟨by decide,
    ((identity_preserved (rfl : areBothPlants true false true false = false)
      (⟨0, 10⟩ : Carnivore Nat) (⟨1, 4⟩ : Carnivore Nat) []).1
      (⟨0, 12⟩, ⟨1, 0⟩, none) (by decide)).1⟩

/-- C15 (totality on valid input): for every accepted pair `encounter` either
returns a result or throws `out_of_range`; control never reaches the end of the
function without a `return`.  In particular the three comparisons of the
meat-eater block cover all vitalities, and when the eligibility gate is open one
of the conditions of the later branches holds. -/
theorem encounter_total
    (req : areBothPlants sp1_eats_m sp1_eats_p sp2_eats_m sp2_eats_p = false)
    (a : Organism species_t sp1_eats_m sp1_eats_p)
    (b : Organism species_t sp2_eats_m sp2_eats_p) :
    ((∃ r, encounter req a b = Except.ok r) ∨
      encounter req a b = Except.error Failure.out_of_range) ∧
    encounter req a b ≠ Except.error Failure.no_return ∧
    (a.get_vitality = b.get_vitality ∨ a.get_vitality < b.get_vitality ∨
      a.get_vitality > b.get_vitality) ∧
    ((((!sp1_eats_p && !sp1_eats_m) && sp2_eats_p) ||
        ((!sp2_eats_p && !sp2_eats_m) && sp1_eats_p) ||
        (!(!sp1_eats_p && !sp1_eats_m) && !(!sp2_eats_p && !sp2_eats_m) &&
          (sp1_eats_m || sp2_eats_m))) = true →
      (((!sp1_eats_p && !sp1_eats_m) && sp2_eats_p) ||
        ((!sp2_eats_p && !sp2_eats_m) && sp1_eats_p) ||
        sp1_eats_m || sp2_eats_m) = true) := by
  have hout := encounter_outcome req a b
  refine ⟨?_, ?_, ?_, ?_⟩
  · generalize encounter req a b = res at hout ⊢
    cases hout
    all_goals first
      | exact Or.inl ⟨_, rfl⟩
      | exact Or.inr rfl
  · generalize encounter req a b = res at hout ⊢
    intro hres
    rw [hres] at hout
    cases hout
  · simp only [Organism.get_vitality]
    omega
  · cases sp1_eats_m <;> cases sp1_eats_p <;> cases sp2_eats_m <;> cases sp2_eats_p <;> decide

/-- Witness of C15: a herbivore meeting an omnivore does not run off the end of
the function. -/
theorem encounter_total_witness :
    encounter (rfl : areBothPlants false true true true = false)
        (⟨0, 2⟩ : Herbivore Nat) (⟨1, 9⟩ : Omnivore Nat)
      ≠ Except.error Failure.no_return :=
  (encounter_total (rfl : areBothPlants false true true true = false)
    (⟨0, 2⟩ : Herbivore Nat) (⟨1, 9⟩ : Omnivore Nat)).2.1

/-- C16 (encounter is symmetric): for every accepted pair, `encounter b a`
throws `out_of_range` exactly when `encounter a b` does; and when
`encounter a b` returns `(a1, b1, off)`, `encounter b a` returns `(b1, a1, off2)`
where `off2` is absent exactly when `off` is, and a present `off2` has the
species, the diet flags and the vitality of `off`. -/
theorem encounter_symmetric
    (req1 : areBothPlants sp1_eats_m sp1_eats_p sp2_eats_m sp2_eats_p = false)
    (req2 : areBothPlants sp2_eats_m sp2_eats_p sp1_eats_m sp1_eats_p = false)
    (a : Organism species_t sp1_eats_m sp1_eats_p)
    (b : Organism species_t sp2_eats_m sp2_eats_p) :
    (encounter req2 b a = Except.error Failure.out_of_range ↔
      encounter req1 a b = Except.error Failure.out_of_range) ∧
    (∀ r, encounter req1 a b = Except.ok r →
      ∃ off2, encounter req2 b a = Except.ok (r.2.1, r.1, off2) ∧
        (off2 = none ↔ r.2.2 = none) ∧
        (∀ o o2, r.2.2 = some o → off2 = some o2 →
          o2.species = o.species ∧ o2.vitality = o.vitality ∧
          (sp2_eats_m = sp1_eats_m ∧ sp2_eats_p = sp1_eats_p))) := by
  have hswap := encounter_swap req1 req2 a b
  constructor
  · cases hab : encounter req1 a b with
    | error e =>
      rw [hab] at hswap
      rw [hswap]
      cases e <;> simp [Except.map]
    | ok r =>
      rw [hab] at hswap
      rw [hswap]
      constructor <;> intro hc <;> cases hc
  · intro r hab
    rw [hab] at hswap
    refine ⟨r.2.2.map
      (fun (o : Organism species_t sp1_eats_m sp1_eats_p) => b.clone_newVitality o.vitality),
      hswap, ?_, ?_⟩
    · cases r.2.2 <;> simp
    · intro o o2 ho ho2
      have hmerge : (sp1_eats_m = sp2_eats_m ∧ sp1_eats_p = sp2_eats_p) ∧
          a.species = b.species := by
        by_contra hnot
        have hnone := encounter_offspring_none req1 a b hnot r hab
        rw [hnone] at ho
        cases ho
      have hspecies := (encounter_species req1 a b r hab).2.2 o ho
      rw [ho] at ho2
      cases ho2
      exact ⟨by rw [hspecies]; exact hmerge.2.symm, rfl, hmerge.1.1.symm, hmerge.1.2.symm⟩

/-- Witness of C16: a herbivore of vitality 3 and a plant of vitality 7, in both
argument orders. -/
theorem encounter_symmetric_witness :
    (encounter (rfl : areBothPlants false false false true = false)
        (⟨1, 7⟩ : Plant Nat) (⟨0, 3⟩ : Herbivore Nat)
      = Except.error Failure.out_of_range ↔
    encounter (rfl : areBothPlants false true false false = false)
        (⟨0, 3⟩ : Herbivore Nat) (⟨1, 7⟩ : Plant Nat)
      = Except.error Failure.out_of_range) :=
  (encounter_symmetric (rfl : areBothPlants false true false false = false)
    (rfl : areBothPlants false false false true = false)
    (⟨0, 3⟩ : Herbivore Nat) (⟨1, 7⟩ : Plant Nat)).1

/-- C17 (no spurious overflow): for every accepted pair whose vitality sum is at
most `2^64 - 1` the encounter returns, so it does not throw; hence a thrown
`out_of_range` means that both participants are alive and that their vitality
sum exceeds `2^64 - 1`. -/
theorem no_spurious_overflow
    (req : areBothPlants sp1_eats_m sp1_eats_p sp2_eats_m sp2_eats_p = false)
    (a : Organism species_t sp1_eats_m sp1_eats_p)
    (b : Organism species_t sp2_eats_m sp2_eats_p) :
    (a.vitality + b.vitality ≤ UINT64_MAX →
      encounter req a b ≠ Except.error Failure.out_of_range ∧
      ∃ r, encounter req a b = Except.ok r) ∧
    (encounter req a b = Except.error Failure.out_of_range →
      0 < a.vitality ∧ 0 < b.vitality ∧ UINT64_MAX < a.vitality + b.vitality) := by
  have hsucc := UINT64_MAX_succ
  have hout := encounter_outcome req a b
  generalize encounter req a b = res at hout ⊢
  constructor
  · intro hfit
    cases hout
    all_goals first
      | (refine ⟨fun hc => ?_, _, rfl⟩; cases hc)
      | (exfalso; omega)
  · intro hres
    rw [hres] at hout
    cases hout with
    | overflow ha hb hover => exact ⟨ha, hb, by omega⟩

/-- Witness of C17: an omnivore of vitality 8 eats a plant of vitality 5 without
an exception. -/
theorem no_spurious_overflow_witness :
    encounter (rfl : areBothPlants true true false false = false)
        (⟨0, 8⟩ : Omnivore Nat) (⟨1, 5⟩ : Plant Nat)
      ≠ Except.error Failure.out_of_range :=
  ((no_spurious_overflow (rfl : areBothPlants true true false false = false)
    (⟨0, 8⟩ : Omnivore Nat) (⟨1, 5⟩ : Plant Nat)).1
    (by rw [UINT64_MAX_eq]; decide)).1

/-- C18 (vitality only grows or drops to zero): when the encounter of an
accepted pair returns, each participant ends with vitality 0 or with at least
its former vitality; and if the vitality of either changed, then one of the two
ends with vitality 0 and there is no offspring. -/
theorem vitality_grows_or_drops_to_zero
    (req : areBothPlants sp1_eats_m sp1_eats_p sp2_eats_m sp2_eats_p = false)
    (a : Organism species_t sp1_eats_m sp1_eats_p)
    (b : Organism species_t sp2_eats_m sp2_eats_p)
    (r : EncounterResult species_t sp1_eats_m sp1_eats_p sp2_eats_m sp2_eats_p)
    (h : encounter req a b = Except.ok r) :
    (r.1.vitality = 0 ∨ a.vitality ≤ r.1.vitality) ∧
    (r.2.1.vitality = 0 ∨ b.vitality ≤ r.2.1.vitality) ∧
    ((r.1.vitality ≠ a.vitality ∨ r.2.1.vitality ≠ b.vitality) →
      (r.1.vitality = 0 ∨ r.2.1.vitality = 0) ∧ r.2.2 = none) := by
  have hout := encounter_outcome req a b
  rw [h] at hout
  cases hout <;> dsimp only [Organism.clone_newVitality] <;>
    refine ⟨by omega, by omega, fun hchg => ⟨by omega, ?_⟩⟩ <;>
    first
      | rfl
      | (exfalso; omega)

/-- Witness of C18: an omnivore of vitality 9 beats a herbivore of vitality 6;
the omnivore grows to 12. -/
theorem vitality_grows_or_drops_to_zero_witness :
    encounter (rfl : areBothPlants true true false true = false)
        (⟨0, 9⟩ : Omnivore Nat) (⟨1, 6⟩ : Herbivore Nat)
      = Except.ok (⟨0, 12⟩, ⟨1, 0⟩, none) ∧
    ((⟨0, 12⟩ : Omnivore Nat).vitality = 0 ∨
      (⟨0, 9⟩ : Omnivore Nat).vitality ≤ (⟨0, 12⟩ : Omnivore Nat).vitality) :=
  ⟨by decide,
    (vitality_grows_or_drops_to_zero (rfl : areBothPlants true true false true = false)
      (⟨0, 9⟩ : Omnivore Nat) (⟨1, 6⟩ : Herbivore Nat) (⟨0, 12⟩, ⟨1, 0⟩, none)
      (by decide)).1⟩

/-- C19 (vitality is never created between the participants): when the
encounter of an accepted pair returns, the vitalities of the two resulting
participants add up to at most the sum of the two input vitalities, with
equality when both are returned unchanged and whenever one participant is a
plant and the other eats plants. -/
theorem vitality_never_created
    (req : areBothPlants sp1_eats_m sp1_eats_p sp2_eats_m sp2_eats_p = false)
    (a : Organism species_t sp1_eats_m sp1_eats_p)
    (b : Organism species_t sp2_eats_m sp2_eats_p)
    (r : EncounterResult species_t sp1_eats_m sp1_eats_p sp2_eats_m sp2_eats_p)
    (h : encounter req a b = Except.ok r) :
    r.1.vitality + r.2.1.vitality ≤ a.vitality + b.vitality ∧
    (r.1 = a ∧ r.2.1 = b → r.1.vitality + r.2.1.vitality = a.vitality + b.vitality) ∧
    ((sp1_eats_m = false ∧ sp1_eats_p = false ∧ sp2_eats_p = true) ∨
      (sp2_eats_m = false ∧ sp2_eats_p = false ∧ sp1_eats_p = true) →
      r.1.vitality + r.2.1.vitality = a.vitality + b.vitality) := by
  have hout := encounter_outcome req a b
  rw [h] at hout
  refine ⟨?_, fun hsame => by rw [hsame.1, hsame.2], ?_⟩
  · cases hout <;> dsimp only [Organism.clone_newVitality] <;> omega
  · intro hflags
    cases hout <;> dsimp only [Organism.clone_newVitality] <;> first
      | omega
      | (exfalso
         rcases hflags with ⟨h1, h2, h3⟩ | ⟨h1, h2, h3⟩ <;> simp_all)

/-- Witness of C19: a carnivore of vitality 4 loses to an omnivore of vitality 9,
which ends at 11; the vitalities add up to 11, below 13. -/
theorem vitality_never_created_witness :
    encounter (rfl : areBothPlants true false true true = false)
        (⟨0, 4⟩ : Carnivore Nat) (⟨1, 9⟩ : Omnivore Nat)
      = Except.ok (⟨0, 0⟩, ⟨1, 11⟩, none) ∧
    (⟨0, 0⟩ : Carnivore Nat).vitality + (⟨1, 11⟩ : Omnivore Nat).vitality ≤
      (⟨0, 4⟩ : Carnivore Nat).vitality + (⟨1, 9⟩ : Omnivore Nat).vitality :=
  ⟨by decide,
    (vitality_never_created (rfl : areBothPlants true false true true = false)
      (⟨0, 4⟩ : Carnivore Nat) (⟨1, 9⟩ : Omnivore Nat) (⟨0, 0⟩, ⟨1, 11⟩, none)
      (by decide)).1⟩

/-- C20 (death is absorbing in a series): a first organism of vitality 0 passes
through every series unchanged, without an exception; hence when a series over
`before` has brought the folded organism to `first` with vitality 0, the series
over `before` followed by `rest` ends with `first`, whose vitality is 0. -/
theorem death_is_absorbing
    (first : Organism species_t sp1_eats_m sp1_eats_p)
    (rest : List (SeriesArg species_t sp1_eats_m sp1_eats_p))
    (hdead : first.vitality = 0) :
    encounter_series first rest = Except.ok first ∧
    (∀ start before, encounter_series start before = Except.ok first →
      ∃ final, encounter_series start (before ++ rest) = Except.ok final ∧
        final = first ∧ final.vitality = 0) := by
  have hrest := encounter_series_of_dead rest first hdead
  refine ⟨hrest, fun start before hbefore => ⟨first, ?_, rfl, hdead⟩⟩
  rw [encounter_series_append, hbefore]
  exact hrest

/-- Witness of C20: a dead carnivore meets a herbivore and then a plant. -/
theorem death_is_absorbing_witness :
    encounter_series (⟨0, 0⟩ : Carnivore Nat)
        [SeriesArg.mk false true rfl ⟨1, 4⟩, SeriesArg.mk false false rfl ⟨2, 9⟩]
      = Except.ok ⟨0, 0⟩ :=
  (death_is_absorbing (⟨0, 0⟩ : Carnivore Nat)
    [SeriesArg.mk false true rfl ⟨1, 4⟩, SeriesArg.mk false false rfl ⟨2, 9⟩] rfl).1

end Invariants

end JnpOrganism
